import Mathlib

/-!
# Verification of the Mango-SEO on-page audit pipeline

Shallow embedding of the audit & recommendation pipeline of the
`onpageseo-service` (scorer, validators, analyzer, recommender, parser)
into Lean 4, with theorems settling the specification claims.

Python `float` values are modelled as `ℚ` (exact rational arithmetic;
IEEE-754 rounding artifacts are idealized away).  Python `round(x, 1)`
is modelled with Mathlib's `round` (ties, which in Python are resolved
half-to-even on the underlying binary float, are idealized as half-up;
no claim depends on tie behaviour).  Display-only string fields
(`message`, `element`, `recommendation` of `SEOIssue`) are not modelled:
Python float formatting inside those f-strings has no faithful rendering
on `ℚ` and no claim reads them.
-/

namespace MangoSEO

/-! ## Shared data model (src/shared_models/models.py) -/

/-- `SEOIssueLevel(str, Enum)` — models.py lines 63-67. -/
inductive SEOIssueLevel where
  | critical
  | warning
  | info
  | success
deriving DecidableEq, Repr

/-- `SEOIssue(BaseModel)` — models.py lines 146-155.  The display-only
string fields `message`, `element`, `recommendation` and the flags
`fixable`, `auto_fix_available`, `agent_type` (never read by the code
under verification) are not modelled. -/
structure SEOIssue where
  type : String
  level : SEOIssueLevel
  weight : ℚ
deriving DecidableEq, Repr

/-! ## Score aggregation (src/onpageseo-service/app/utils/scorer.py) -/

/-- Python `round(x, 1)`: round to one decimal digit. -/
def round1 (x : ℚ) : ℚ := (round (x * 10) : ℚ) / 10

/-- Per-issue penalty contribution of `SEOScorer.calculate_seo_score`
(scorer.py lines 51-58): the `if/elif` chain adds `weight * 0.8` for
critical, `weight * 0.4` for warning, `weight * 0.1` for info and
nothing for the `success` level. -/
def issuePenalty (i : SEOIssue) : ℚ :=
  match i.level with
  | .critical => i.weight * (8 / 10)
  | .warning => i.weight * (4 / 10)
  | .info => i.weight * (1 / 10)
  | .success => 0

/-- `total_weight` accumulated by the loop of `calculate_seo_score`
(scorer.py line 60). -/
def totalWeight (issues : List SEOIssue) : ℚ :=
  (issues.map (fun i => i.weight)).sum

/-- `penalty` accumulated by the loop of `calculate_seo_score`
(scorer.py lines 51-58). -/
def totalPenalty (issues : List SEOIssue) : ℚ :=
  (issues.map issuePenalty).sum

/-- `SEOScorer.calculate_seo_score` — scorer.py lines 40-69. -/
def calculate_seo_score (issues : List SEOIssue) (max_score : ℚ) : ℚ :=
  if issues.isEmpty then max_score
  else
    let total_weight := totalWeight issues
    let penalty := totalPenalty issues
    if total_weight = 0 then max_score
    else
      let normalized_penalty := min (penalty / total_weight) 1
      round1 (max_score * (1 - normalized_penalty))

/-! ## Basic facts about `round1` and the score -/

theorem round1_mono {x y : ℚ} (h : x ≤ y) : round1 x ≤ round1 y := by
  unfold round1
  have hr : round (x * 10) ≤ round (y * 10) := by
    rw [round_eq, round_eq]
    exact Int.floor_le_floor (by linarith)
  have : ((round (x * 10) : ℤ) : ℚ) ≤ ((round (y * 10) : ℤ) : ℚ) := by
    exact_mod_cast hr
  linarith

theorem round1_zero : round1 0 = 0 := by
  unfold round1
  norm_num

theorem round1_hundred : round1 100 = 100 := by
  unfold round1
  rw [show ((100 : ℚ) * 10) = ((1000 : ℤ) : ℚ) by norm_num, round_intCast]
  norm_num

/-- With nonnegative weights, the per-issue penalty is nonnegative. -/
theorem issuePenalty_nonneg {i : SEOIssue} (h : 0 ≤ i.weight) : 0 ≤ issuePenalty i := by
  unfold issuePenalty
  cases i.level <;> simp <;> positivity

/-- With nonnegative weights, the per-issue penalty is at most `0.8 * weight`. -/
theorem issuePenalty_le {i : SEOIssue} (h : 0 ≤ i.weight) :
    issuePenalty i ≤ i.weight * (8 / 10) := by
  unfold issuePenalty
  cases i.level <;> simp <;> linarith

theorem totalWeight_nonneg {issues : List SEOIssue}
    (h : ∀ i ∈ issues, 0 ≤ i.weight) : 0 ≤ totalWeight issues := by
  unfold totalWeight
  induction issues with
  | nil => simp
  | cons a l ih =>
    simp only [List.map_cons, List.sum_cons]
    have ha := h a (List.mem_cons_self a l)
    have hl := ih (fun i hi => h i (List.mem_cons_of_mem a hi))
    linarith

theorem totalPenalty_nonneg {issues : List SEOIssue}
    (h : ∀ i ∈ issues, 0 ≤ i.weight) : 0 ≤ totalPenalty issues := by
  unfold totalPenalty
  induction issues with
  | nil => simp
  | cons a l ih =>
    simp only [List.map_cons, List.sum_cons]
    have ha := issuePenalty_nonneg (h a (List.mem_cons_self a l))
    have hl := ih (fun i hi => h i (List.mem_cons_of_mem a hi))
    linarith

theorem totalPenalty_le {issues : List SEOIssue}
    (h : ∀ i ∈ issues, 0 ≤ i.weight) :
    totalPenalty issues ≤ totalWeight issues * (8 / 10) := by
  unfold totalPenalty totalWeight
  induction issues with
  | nil => simp
  | cons a l ih =>
    simp only [List.map_cons, List.sum_cons]
    have ha := issuePenalty_le (h a (List.mem_cons_self a l))
    have hl := ih (fun i hi => h i (List.mem_cons_of_mem a hi))
    ring_nf
    ring_nf at ha hl
    linarith

/-- The computed score never exceeds 100 (weights nonnegative). -/
theorem calculate_seo_score_le_hundred {issues : List SEOIssue}
    (h : ∀ i ∈ issues, 0 ≤ i.weight) :
    calculate_seo_score issues 100 ≤ 100 := by
  unfold calculate_seo_score
  split
  · exact le_refl _
  · dsimp only
    split
    · exact le_refl _
    · rename_i hne hw
      have hP : 0 ≤ totalPenalty issues := totalPenalty_nonneg h
      have hW : 0 ≤ totalWeight issues := totalWeight_nonneg h
      have hWpos : 0 < totalWeight issues := lt_of_le_of_ne hW (Ne.symm hw)
      have hr : 0 ≤ totalPenalty issues / totalWeight issues := by positivity
      have hmin : 0 ≤ min (totalPenalty issues / totalWeight issues) 1 :=
        le_min hr (by norm_num)
      calc round1 (100 * (1 - min (totalPenalty issues / totalWeight issues) 1))
          ≤ round1 100 := round1_mono (by nlinarith)
        _ = 100 := round1_hundred

/-- The computed score is never below 0 (no hypothesis needed:
`normalized_penalty` is clamped at 1). -/
theorem calculate_seo_score_nonneg (issues : List SEOIssue) :
    0 ≤ calculate_seo_score issues 100 := by
  unfold calculate_seo_score
  split
  · norm_num
  · dsimp only
    split
    · norm_num
    · have hmin : min (totalPenalty issues / totalWeight issues) 1 ≤ 1 :=
        min_le_right _ _
      calc (0 : ℚ) = round1 0 := round1_zero.symm
        _ ≤ round1 (100 * (1 - min (totalPenalty issues / totalWeight issues) 1)) :=
            round1_mono (by nlinarith)

/-! ## Category scores (src/onpageseo-service/app/services/analyzer.py lines 319-340) -/

/-- Helper for Python's substring operator: `charsHavePre pat s` is true
iff `s` starts with `pat`. -/
def charsHavePre : List Char → List Char → Bool
  | [], _ => true
  | _ :: _, [] => false
  | c :: cs, d :: ds => c == d && charsHavePre cs ds

/-- Helper: `pat` occurs as a contiguous run somewhere in the source. -/
def charsHaveSub (pat : List Char) : List Char → Bool
  | [] => charsHavePre pat []
  | d :: ds => charsHavePre pat (d :: ds) || charsHaveSub pat ds

/-- Python's `sub in s` substring test on strings. -/
def strContains (s sub : String) : Bool := charsHaveSub sub.toList s.toList

/-- The five category buckets of `SEOAnalyzer._calculate_category_scores`
(analyzer.py lines 321-335): substring matching on the issue type. -/
def categoryIssues (issues : List SEOIssue) : List (String × List SEOIssue) :=
  [("technical", issues.filter (fun i => strContains i.type "meta" || strContains i.type "canonical")),
   ("content", issues.filter (fun i => strContains i.type "content")),
   ("images", issues.filter (fun i => strContains i.type "alt")),
   ("headings", issues.filter (fun i => strContains i.type "h1" || strContains i.type "heading")),
   ("links", issues.filter (fun i => strContains i.type "link"))]

/-- `SEOAnalyzer._calculate_category_scores` — analyzer.py lines 319-340. -/
def calculate_category_scores (issues : List SEOIssue) : List (String × ℚ) :=
  (categoryIssues issues).map (fun c => (c.1, calculate_seo_score c.2 100))

theorem categoryIssues_sub {issues : List SEOIssue} :
    ∀ c ∈ categoryIssues issues, ∀ i ∈ c.2, i ∈ issues := by
  intro c hc
  simp only [categoryIssues, List.mem_cons, List.not_mem_nil, or_false] at hc
  rcases hc with rfl | rfl | rfl | rfl | rfl <;>
    exact fun i hi => List.mem_of_mem_filter hi

/-! ## Claim C1 -/

/-- Severity multiplier table as the spec states it (critical 0.8,
warning 0.4, info 0.1); the spec lists no multiplier for the fourth
severity `success`, for which the code's `if/elif` chain adds no penalty,
hence 0. -/
def specSeverityMultiplier : SEOIssueLevel → ℚ
  | .critical => 8 / 10
  | .warning => 4 / 10
  | .info => 1 / 10
  | .success => 0

theorem issuePenalty_eq_mul (i : SEOIssue) :
    issuePenalty i = i.weight * specSeverityMultiplier i.level := by
  unfold issuePenalty specSeverityMultiplier
  cases i.level <;> simp

/-- C1: the score aggregator returns the max score on an empty issue
list, and otherwise (whenever the accumulated total weight is nonzero,
which is the only case in which the spec's quotient `penalty/totalWeight`
denotes) returns `round(maxScore * (1 - min(penalty/totalWeight, 1)), 1)`
where `penalty` sums `weight * severityMultiplier` with multipliers
critical 0.8, warning 0.4, info 0.1. -/
theorem C1_calculate_seo_score_formula (issues : List SEOIssue) (max_score : ℚ) :
    (issues = [] → calculate_seo_score issues max_score = max_score) ∧
    (issues ≠ [] → (issues.map (fun i => i.weight)).sum ≠ 0 →
      calculate_seo_score issues max_score =
        round1 (max_score *
          (1 - min ((issues.map (fun i => i.weight * specSeverityMultiplier i.level)).sum /
                      (issues.map (fun i => i.weight)).sum) 1))) := by
  constructor
  · rintro rfl
    simp [calculate_seo_score]
  · intro hne hW
    have hPen : totalPenalty issues =
        (issues.map (fun i => i.weight * specSeverityMultiplier i.level)).sum := by
      unfold totalPenalty
      congr 1
      exact List.map_congr_left (fun i _ => issuePenalty_eq_mul i)
    unfold calculate_seo_score
    rw [if_neg (by simpa [List.isEmpty_iff] using hne)]
    dsimp only
    rw [if_neg (by simpa [totalWeight] using hW)]
    rw [hPen]
    rfl

/-- Witness for C1 at a concrete input. -/
theorem C1_witness :
    calculate_seo_score [⟨"title_missing", .critical, 10⟩] 100 =
      round1 (100 *
        (1 - min
          ((([⟨"title_missing", .critical, 10⟩] : List SEOIssue).map
              (fun i => i.weight * specSeverityMultiplier i.level)).sum /
            (([⟨"title_missing", .critical, 10⟩] : List SEOIssue).map
              (fun i => i.weight)).sum) 1)) :=
  (C1_calculate_seo_score_formula [⟨"title_missing", .critical, 10⟩] 100).2
    (by simp) (by norm_num)

/-! ## Claim C2 (corrected) -/

/-- C2 counterexample: appending an info issue of weight 10 to a list
holding one critical issue of weight 10 RAISES the score from 20.0 to
55.0, refuting "adding any issue never increases the computed score". -/
theorem C2_counterexample :
    ¬ (calculate_seo_score
          ([⟨"title_missing", .critical, 10⟩] ++ [⟨"no_tables", .info, 10⟩]) 100 ≤
        calculate_seo_score [⟨"title_missing", .critical, 10⟩] 100) := by
  have h1 : calculate_seo_score [⟨"title_missing", .critical, 10⟩] 100 = 20 := by
    norm_num [calculate_seo_score, totalWeight, totalPenalty, issuePenalty, round1,
      round_eq, List.isEmpty, Int.floor_eq_iff]
  have h2 : calculate_seo_score
      ([⟨"title_missing", .critical, 10⟩] ++ [⟨"no_tables", .info, 10⟩]) 100 = 55 := by
    norm_num [calculate_seo_score, totalWeight, totalPenalty, issuePenalty, round1,
      round_eq, List.isEmpty, Int.floor_eq_iff]
  rw [h1, h2]
  norm_num

theorem totalWeight_append (L M : List SEOIssue) :
    totalWeight (L ++ M) = totalWeight L + totalWeight M := by
  simp [totalWeight]

theorem totalPenalty_append (L M : List SEOIssue) :
    totalPenalty (L ++ M) = totalPenalty L + totalPenalty M := by
  simp [totalPenalty]

/-- C2 (amended): adding a CRITICAL issue (the largest severity
multiplier) never increases the computed score, provided all weights are
nonnegative (the data-model invariant keeps them positive); for lower
severities the score can increase, as the counterexample shows. -/
theorem C2_amended_critical_never_increases (L : List SEOIssue) (i : SEOIssue)
    (hL : ∀ j ∈ L, 0 ≤ j.weight) (hi : 0 ≤ i.weight) (hcrit : i.level = .critical) :
    calculate_seo_score (L ++ [i]) 100 ≤ calculate_seo_score L 100 := by
  have hLi : ∀ j ∈ L ++ [i], 0 ≤ j.weight := by
    intro j hj
    rcases List.mem_append.1 hj with h | h
    · exact hL j h
    · simp only [List.mem_singleton] at h
      subst h
      exact hi
  rcases eq_or_ne L [] with rfl | hLne
  · have hR : calculate_seo_score ([] : List SEOIssue) 100 = 100 := by
      simp [calculate_seo_score]
    rw [hR]
    simpa using calculate_seo_score_le_hundred hLi
  · have hpen_i : issuePenalty i = i.weight * (8 / 10) := by
      unfold issuePenalty
      rw [hcrit]
    have hW : 0 ≤ totalWeight L := totalWeight_nonneg hL
    have hP : 0 ≤ totalPenalty L := totalPenalty_nonneg hL
    have hPle : totalPenalty L ≤ totalWeight L * (8 / 10) := totalPenalty_le hL
    rcases eq_or_ne (totalWeight (L ++ [i])) 0 with hWi0 | hWi0
    · -- all weights vanish: both sides take the `total_weight == 0` branch
      have hw0 : totalWeight L = 0 ∧ i.weight = 0 := by
        rw [totalWeight_append] at hWi0
        have : totalWeight [i] = i.weight := by simp [totalWeight]
        constructor <;> nlinarith [this ▸ hWi0]
      have hLHS : calculate_seo_score (L ++ [i]) 100 = 100 := by
        unfold calculate_seo_score
        rw [if_neg (by simp), if_pos hWi0]
      have hRHS : calculate_seo_score L 100 = 100 := by
        unfold calculate_seo_score
        rw [if_neg (by simpa [List.isEmpty_iff] using hLne), if_pos hw0.1]
      rw [hLHS, hRHS]
    · rcases eq_or_ne (totalWeight L) 0 with hW0 | hW0
      · have hRHS : calculate_seo_score L 100 = 100 := by
          unfold calculate_seo_score
          rw [if_neg (by simpa [List.isEmpty_iff] using hLne), if_pos hW0]
        rw [hRHS]
        exact calculate_seo_score_le_hundred hLi
      · have hWpos : 0 < totalWeight L := lt_of_le_of_ne hW (Ne.symm hW0)
        have hWi : totalWeight (L ++ [i]) = totalWeight L + i.weight := by
          rw [totalWeight_append]
          simp [totalWeight]
        have hPi : totalPenalty (L ++ [i]) = totalPenalty L + i.weight * (8 / 10) := by
          rw [totalPenalty_append]
          simp [totalPenalty, hpen_i]
        have hWipos : 0 < totalWeight (L ++ [i]) := by
          rw [hWi]
          rcases lt_or_eq_of_le hi with h | h
          · linarith
          · rw [hWi] at hWi0
            rcases lt_or_eq_of_le hW with h2 | h2
            · linarith
            · exact absurd (by linarith : totalWeight L + i.weight = 0) hWi0
        have hratio : totalPenalty L / totalWeight L ≤
            totalPenalty (L ++ [i]) / totalWeight (L ++ [i]) := by
          rw [div_le_div_iff₀ hWpos hWipos, hWi, hPi]
          nlinarith
        have hLHS : calculate_seo_score (L ++ [i]) 100 =
            round1 (100 * (1 - min (totalPenalty (L ++ [i]) / totalWeight (L ++ [i])) 1)) := by
          unfold calculate_seo_score
          rw [if_neg (by simp)]
          dsimp only
          rw [if_neg hWi0]
        have hRHS : calculate_seo_score L 100 =
            round1 (100 * (1 - min (totalPenalty L / totalWeight L) 1)) := by
          unfold calculate_seo_score
          rw [if_neg (by simpa [List.isEmpty_iff] using hLne)]
          dsimp only
          rw [if_neg hW0]
        rw [hLHS, hRHS]
        apply round1_mono
        have hmin : min (totalPenalty L / totalWeight L) 1 ≤
            min (totalPenalty (L ++ [i]) / totalWeight (L ++ [i])) 1 :=
          min_le_min hratio (le_refl 1)
        nlinarith

/-- Witness for the amended C2 at a concrete input. -/
theorem C2_amended_witness :
    calculate_seo_score
        ([⟨"no_tables", .info, 1⟩] ++ [⟨"title_missing", .critical, 10⟩]) 100 ≤
      calculate_seo_score [⟨"no_tables", .info, 1⟩] 100 :=
  C2_amended_critical_never_increases [⟨"no_tables", .info, 1⟩]
    ⟨"title_missing", .critical, 10⟩
    (by intro j hj; simp at hj; rw [hj]; norm_num) (by norm_num) rfl

/-! ## Claim C3 -/

/-- C3: the overall score and every per-category score lie in `[0, 100]`
(weights nonnegative, as guaranteed by the data-model invariant
`weight > 0`). -/
theorem C3_scores_bounded (issues : List SEOIssue)
    (h : ∀ i ∈ issues, 0 ≤ i.weight) :
    (0 ≤ calculate_seo_score issues 100 ∧ calculate_seo_score issues 100 ≤ 100) ∧
    (∀ p ∈ calculate_category_scores issues, 0 ≤ p.2 ∧ p.2 ≤ 100) := by
  refine ⟨⟨calculate_seo_score_nonneg issues, calculate_seo_score_le_hundred h⟩, ?_⟩
  intro p hp
  obtain ⟨c, hc, rfl⟩ := List.mem_map.1 hp
  have hsub := categoryIssues_sub c hc
  exact ⟨calculate_seo_score_nonneg c.2,
    calculate_seo_score_le_hundred (fun i hi => h i (hsub i hi))⟩

/-- Witness for C3 at a concrete input. -/
theorem C3_witness :
    (0 ≤ calculate_seo_score [⟨"thin_content", .warning, 7⟩] 100 ∧
      calculate_seo_score [⟨"thin_content", .warning, 7⟩] 100 ≤ 100) ∧
    (∀ p ∈ calculate_category_scores [⟨"thin_content", .warning, 7⟩],
      0 ≤ p.2 ∧ p.2 ≤ 100) :=
  C3_scores_bounded [⟨"thin_content", .warning, 7⟩]
    (by intro i hi; simp at hi; rw [hi]; norm_num)

/-! ## Passed checks (src/onpageseo-service/app/services/analyzer.py lines 342-391) -/

/-- Python `any(t in failed_types for t in fams)` where `failed_types`
is the set of the issues' type codes. -/
def anyFailed (issues : List SEOIssue) (fams : List String) : Bool :=
  fams.any (fun t => issues.any (fun i => i.type == t))

/-- `SEOAnalyzer._get_passed_checks` — analyzer.py lines 342-391: eight
sequential "append the check name unless one of its issue types
occurred" blocks. -/
def get_passed_checks (issues : List SEOIssue) : List String :=
  (if anyFailed issues ["title_missing", "title_too_short", "title_too_long"]
    then [] else ["title_present"]) ++
  (if anyFailed issues
      ["meta_description_missing", "meta_description_too_short", "meta_description_too_long"]
    then [] else ["meta_description_present"]) ++
  (if anyFailed issues ["missing_h1", "multiple_h1"] then [] else ["h1_present"]) ++
  (if anyFailed issues ["missing_alt_text", "empty_alt_text"]
    then [] else ["images_have_alt"]) ++
  (if anyFailed issues ["thin_content", "content_too_long"]
    then [] else ["content_sufficient"]) ++
  (if anyFailed issues ["no_schema_markup"] then [] else ["schema_present"]) ++
  (if anyFailed issues ["missing_canonical", "mismatched_canonical"]
    then [] else ["canonical_present"]) ++
  (if anyFailed issues ["missing_language"] then [] else ["language_declared"])

/-- The fixed check-name → issue-type-family table realized by
`_get_passed_checks`. -/
def passedChecksTable : List (String × List String) :=
  [("title_present", ["title_missing", "title_too_short", "title_too_long"]),
   ("meta_description_present",
     ["meta_description_missing", "meta_description_too_short", "meta_description_too_long"]),
   ("h1_present", ["missing_h1", "multiple_h1"]),
   ("images_have_alt", ["missing_alt_text", "empty_alt_text"]),
   ("content_sufficient", ["thin_content", "content_too_long"]),
   ("schema_present", ["no_schema_markup"]),
   ("canonical_present", ["missing_canonical", "mismatched_canonical"]),
   ("language_declared", ["missing_language"])]

theorem mem_ite_nil_singleton {c : Prop} [Decidable c] {a b : String} :
    (a ∈ (if c then ([] : List String) else [b])) ↔ ¬c ∧ a = b := by
  split <;> simp_all

theorem anyFailed_iff {issues : List SEOIssue} {fams : List String} :
    anyFailed issues fams = true ↔ ∃ i ∈ issues, i.type ∈ fams := by
  simp only [anyFailed, List.any_eq_true, beq_iff_eq]
  constructor
  · rintro ⟨t, ht, i, hi, rfl⟩
    exact ⟨i, hi, ht⟩
  · rintro ⟨i, hi, ht⟩
    exact ⟨i.type, ht, i, hi, rfl⟩

/-- C7: for each of the eight table rows, the check name appears in the
passed-checks list iff no issue of its mapped type family occurs. -/
theorem C7_passed_checks_iff (issues : List SEOIssue) :
    ∀ p ∈ passedChecksTable,
      (p.1 ∈ get_passed_checks issues ↔ ∀ i ∈ issues, i.type ∉ p.2) := by
  intro p hp
  simp only [passedChecksTable, List.mem_cons, List.not_mem_nil, or_false] at hp
  rcases hp with rfl | rfl | rfl | rfl | rfl | rfl | rfl | rfl <;>
    · simp only [get_passed_checks, List.mem_append, mem_ite_nil_singleton]
      simp [anyFailed_iff]

/-- Witness for C7 at a concrete input. -/
theorem C7_witness :
    (("h1_present", ["missing_h1", "multiple_h1"]).1 ∈
        get_passed_checks [⟨"thin_content", .warning, 7⟩] ↔
      ∀ i ∈ [(⟨"thin_content", .warning, 7⟩ : SEOIssue)],
        i.type ∉ ("h1_present", ["missing_h1", "multiple_h1"]).2) :=
  C7_passed_checks_iff [⟨"thin_content", .warning, 7⟩]
    ("h1_present", ["missing_h1", "multiple_h1"]) (by simp [passedChecksTable])

/-! ## Recommendation model (src/shared_models/models.py lines 92-101, 326-340) -/

/-- `AgentType(str, Enum)` — models.py lines 92-101. -/
inductive AgentType where
  | keyword
  | semantic
  | schema
  | competitor
  | performance
  | strategy
  | writing
  | review
  | media
  | faq
deriving DecidableEq, Repr

/-- `AIRecommendation(BaseModel)` — models.py lines 326-340.  The
server-generated fields `id` (random uuid4 default), `task_id`,
`url_id`, `created_at` are not modelled; all fields the pipeline
computes are kept. -/
structure AIRecommendation where
  type : String
  original : String
  suggested : String
  confidence_score : ℚ
  reasoning : String
  impact_score : ℚ
  agent_type : AgentType
  implementation_complexity : String
  estimated_time : Nat
deriving DecidableEq, Repr

/-! ## Deduplication (src/onpageseo-service/app/services/recommender.py lines 336-384) -/

/-- The `(rec.type, rec.suggested)` dedup key of
`_convert_to_recommendations` (recommender.py line 379). -/
def dedupKey (rec : AIRecommendation) : String × String := (rec.type, rec.suggested)

/-- The dedup loop of `_convert_to_recommendations` (recommender.py
lines 375-384): `seen` holds the keys already kept; the first occurrence
of each key is appended, later ones are dropped. -/
def dedupRecommendationsAux (seen : List (String × String)) :
    List AIRecommendation → List AIRecommendation
  | [] => []
  | a0 :: rest =>
    if dedupKey a0 ∈ seen then dedupRecommendationsAux seen rest
    else a0 :: dedupRecommendationsAux (dedupKey a0 :: seen) rest

/-- `SEORecommender._convert_to_recommendations`, deduplication stage
(recommender.py lines 375-384), applied to the concatenated creator
outputs (`all_recommendations`, assembled in lines 343-373). -/
def dedupRecommendations (all_recommendations : List AIRecommendation) :
    List AIRecommendation :=
  dedupRecommendationsAux [] all_recommendations

theorem dedupAux_sublist :
    ∀ (l : List AIRecommendation) (seen : List (String × String)),
      (dedupRecommendationsAux seen l).Sublist l := by
  intro l
  induction l with
  | nil => intro seen; simp [dedupRecommendationsAux]
  | cons a0 rest ih =>
    intro seen
    unfold dedupRecommendationsAux
    split
    · exact (ih seen).cons a0
    · exact (ih (dedupKey a0 :: seen)).cons₂ a0

theorem dedupAux_key_not_seen :
    ∀ (l : List AIRecommendation) (seen : List (String × String)),
      ∀ r ∈ dedupRecommendationsAux seen l, dedupKey r ∉ seen := by
  intro l
  induction l with
  | nil => intro seen r hr; simp [dedupRecommendationsAux] at hr
  | cons a0 rest ih =>
    intro seen r hr
    unfold dedupRecommendationsAux at hr
    split at hr
    · exact ih seen r hr
    · rcases List.mem_cons.1 hr with rfl | hr'
      · assumption
      · have := ih (dedupKey a0 :: seen) r hr'
        exact fun hmem => this (List.mem_cons_of_mem _ hmem)

theorem dedupAux_keys_nodup :
    ∀ (l : List AIRecommendation) (seen : List (String × String)),
      ((dedupRecommendationsAux seen l).map dedupKey).Nodup := by
  intro l
  induction l with
  | nil => intro seen; simp [dedupRecommendationsAux]
  | cons a0 rest ih =>
    intro seen
    unfold dedupRecommendationsAux
    split
    · exact ih seen
    · simp only [List.map_cons, List.nodup_cons]
      refine ⟨?_, ih (dedupKey a0 :: seen)⟩
      intro hmem
      obtain ⟨r, hr, hkey⟩ := List.mem_map.1 hmem
      have := dedupAux_key_not_seen rest (dedupKey a0 :: seen) r hr
      exact this (hkey ▸ List.mem_cons_self _ _)

theorem dedupAux_covers :
    ∀ (l : List AIRecommendation) (seen : List (String × String)),
      ∀ r ∈ l, dedupKey r ∈ seen ∨
        ∃ r' ∈ dedupRecommendationsAux seen l, dedupKey r' = dedupKey r := by
  intro l
  induction l with
  | nil => intro seen r hr; simp at hr
  | cons a0 rest ih =>
    intro seen r hr
    unfold dedupRecommendationsAux
    rcases List.mem_cons.1 hr with rfl | hr'
    · split
      · left; assumption
      · right; exact ⟨r, List.mem_cons_self _ _, rfl⟩
    · split
      · rcases ih seen r hr' with h | ⟨r', hr'', hkey⟩
        · left; exact h
        · right; exact ⟨r', hr'', hkey⟩
      · rcases ih (dedupKey a0 :: seen) r hr' with h | ⟨r', hr'', hkey⟩
        · rcases List.mem_cons.1 h with heq | hseen
          · right; exact ⟨a0, List.mem_cons_self _ _, heq.symm⟩
          · left; exact hseen
        · right; exact ⟨r', List.mem_cons_of_mem _ hr'', hkey⟩

theorem dedupAux_first_occurrence :
    ∀ (l : List AIRecommendation) (seen : List (String × String)),
      ∀ r ∈ dedupRecommendationsAux seen l,
        l.find? (fun x => decide (dedupKey x = dedupKey r)) = some r := by
  intro l
  induction l with
  | nil => intro seen r hr; simp [dedupRecommendationsAux] at hr
  | cons a0 rest ih =>
    intro seen r hr
    unfold dedupRecommendationsAux at hr
    split at hr
    · rename_i hseen
      have hne : dedupKey a0 ≠ dedupKey r := by
        intro heq
        exact dedupAux_key_not_seen rest seen r hr (heq ▸ hseen)
      rw [List.find?_cons_of_neg _ (by simpa using hne)]
      exact ih seen r hr
    · rcases List.mem_cons.1 hr with rfl | hr'
      · rw [List.find?_cons_of_pos _ (by simp)]
      · have hnot := dedupAux_key_not_seen rest (dedupKey a0 :: seen) r hr'
        have hne : dedupKey a0 ≠ dedupKey r := by
          intro heq
          exact hnot (heq ▸ List.mem_cons_self _ _)
        rw [List.find?_cons_of_neg _ (by simpa using hne)]
        exact ih (dedupKey a0 :: seen) r hr'

/-- C8: the dedup stage keeps exactly the first occurrence of each
`(type, suggested)` pair, in order and with all its fields (metadata)
unchanged, and the pair is unique in the output:
(1) output keys are pairwise distinct; (2) the output is a sublist of
the input (first occurrences, metadata intact, order preserved);
(3) every input key survives; (4) every kept entry is precisely the
FIRST input entry bearing its key. -/
theorem C8_dedup_first_occurrence_unique (recs : List AIRecommendation) :
    ((dedupRecommendations recs).map dedupKey).Nodup ∧
    (dedupRecommendations recs).Sublist recs ∧
    (∀ r ∈ recs, ∃ r' ∈ dedupRecommendations recs, dedupKey r' = dedupKey r) ∧
    (∀ r ∈ dedupRecommendations recs,
      recs.find? (fun x => decide (dedupKey x = dedupKey r)) = some r) := by
  refine ⟨dedupAux_keys_nodup recs [], dedupAux_sublist recs [], ?_, ?_⟩
  · intro r hr
    rcases dedupAux_covers recs [] r hr with h | h
    · simp at h
    · exact h
  · exact dedupAux_first_occurrence recs []

/-! ## Prioritization (src/onpageseo-service/app/services/recommender.py lines 788-812) -/

/-- `SEORecommender._complexity_score` — recommender.py lines 809-812:
dictionary lookup with default 2. -/
def complexity_score (complexity : String) : Nat :=
  match complexity.toLower with
  | "low" => 1
  | "medium" => 2
  | "high" => 3
  | _ => 2

/-- The per-recommendation priority score of
`_prioritize_recommendations` (recommender.py lines 797-801). -/
def priorityScore (rec : AIRecommendation) : ℚ :=
  rec.impact_score * 100 - (complexity_score rec.implementation_complexity : ℚ) * 10

/-- `SEORecommender._prioritize_recommendations` — recommender.py lines
788-807.  Python's `list.sort(key=lambda x: x[0], reverse=True)` is a
stable descending sort on the score component; `List.mergeSort` with
`le a b := (b.1 ≤ a.1)` is its stable analogue. -/
def prioritize_recommendations (recommendations : List AIRecommendation) :
    List AIRecommendation :=
  if recommendations.isEmpty then []
  else
    let scored := recommendations.map (fun r => (priorityScore r, r))
    let sorted := scored.mergeSort (fun a b => decide (b.1 ≤ a.1))
    sorted.map (fun x => x.2)

/-- Witness for C8 at a concrete input. -/
theorem C8_witness :
    ((dedupRecommendations []).map dedupKey).Nodup ∧
    (dedupRecommendations []).Sublist [] ∧
    (∀ r ∈ ([] : List AIRecommendation),
      ∃ r' ∈ dedupRecommendations [], dedupKey r' = dedupKey r) ∧
    (∀ r ∈ dedupRecommendations [],
      ([] : List AIRecommendation).find?
        (fun x => decide (dedupKey x = dedupKey r)) = some r) :=
  C8_dedup_first_occurrence_unique []

/-- The pair comparator realizing `reverse=True` sorting on the score
component. -/
def prioLE (a b : ℚ × AIRecommendation) : Bool := decide (b.1 ≤ a.1)

theorem prioLE_trans : ∀ a b c : ℚ × AIRecommendation,
    prioLE a b = true → prioLE b c = true → prioLE a c = true := by
  intro a b c hab hbc
  simp only [prioLE, decide_eq_true_eq] at *
  exact le_trans hbc hab

theorem prioLE_total : ∀ a b : ℚ × AIRecommendation,
    (prioLE a b || prioLE b a) = true := by
  intro a b
  simp only [prioLE, Bool.or_eq_true, decide_eq_true_eq]
  exact (le_total b.1 a.1)

theorem pairwise_of_all {α : Type} {R : α → α → Prop} {P : α → Prop} {l : List α}
    (hl : ∀ x ∈ l, P x) (h : ∀ a b, P a → P b → R a b) : l.Pairwise R := by
  induction l with
  | nil => exact List.Pairwise.nil
  | cons a t ih =>
    refine List.Pairwise.cons ?_ (ih (fun x hx => hl x (List.mem_cons_of_mem a hx)))
    intro b hb
    exact h a b (hl a (List.mem_cons_self a t)) (hl b (List.mem_cons_of_mem a hb))

/-- C9: `_prioritize_recommendations` returns the whole input (a
permutation, no truncation), sorted descending by
`impact_score*100 - complexityWeight*10`, and stably: for each priority
value, the entries carrying it appear in their prior relative order. -/
theorem C9_prioritize_full_sorted_stable (recommendations : List AIRecommendation) :
    (prioritize_recommendations recommendations).Perm recommendations ∧
    (prioritize_recommendations recommendations).Pairwise
      (fun a b => priorityScore b ≤ priorityScore a) ∧
    (∀ s : ℚ, (prioritize_recommendations recommendations).filter
        (fun r => decide (priorityScore r = s)) =
      recommendations.filter (fun r => decide (priorityScore r = s))) := by
  unfold prioritize_recommendations
  split
  · rename_i hempty
    rw [List.isEmpty_iff] at hempty
    subst hempty
    exact ⟨List.Perm.refl _, List.Pairwise.nil, fun s => rfl⟩
  · rename_i hne
    set g : AIRecommendation → ℚ × AIRecommendation := fun r => (priorityScore r, r) with hg
    set scored := recommendations.map g with hscored
    set sorted := scored.mergeSort prioLE with hsorted
    have hperm : sorted.Perm scored := List.mergeSort_perm scored prioLE
    have hmem : ∀ x ∈ sorted, x.1 = priorityScore x.2 := by
      intro x hx
      obtain ⟨r, _, rfl⟩ := List.mem_map.1 (hperm.subset hx)
      rfl
    have hmapsnd : scored.map (fun x => x.2) = recommendations := by
      rw [hscored, List.map_map]
      exact List.map_id recommendations
    refine ⟨?_, ?_, ?_⟩
    · have := hperm.map (fun x : ℚ × AIRecommendation => x.2)
      rw [hmapsnd] at this
      exact this
    · have hp : sorted.Pairwise (fun a b => prioLE a b = true) :=
        List.sorted_mergeSort prioLE_trans prioLE_total scored
      have hp2 : sorted.Pairwise
          (fun a b : ℚ × AIRecommendation => priorityScore b.2 ≤ priorityScore a.2) := by
        refine hp.imp_of_mem ?_
        intro a b ha hb hab
        simp only [prioLE, decide_eq_true_eq] at hab
        rw [← hmem a ha, ← hmem b hb]
        exact hab
      exact (List.pairwise_map).2 hp2
    · intro s
      set p : ℚ × AIRecommendation → Bool := fun x => decide (x.1 = s) with hpdef
      have hcsub : (scored.filter p).Sublist scored := List.filter_sublist scored
      have hcpair : (scored.filter p).Pairwise (fun a b => prioLE a b = true) := by
        refine pairwise_of_all (P := fun x : ℚ × AIRecommendation => p x = true)
          (fun x hx => (List.mem_filter.1 hx).2) ?_
        intro a b ha hb
        simp only [hpdef, decide_eq_true_eq] at ha hb
        simp [prioLE, ha, hb]
      have hsub2 : (scored.filter p).Sublist sorted :=
        List.sublist_mergeSort prioLE_trans prioLE_total hcpair hcsub
      have hsub3 : (scored.filter p).Sublist (sorted.filter p) := by
        have := hsub2.filter p
        rwa [List.filter_filter, (by
          funext x
          cases hx : p x <;> simp [hx] : (fun x => p x && p x) = p)] at this
      have hpermf : (sorted.filter p).Perm (scored.filter p) := hperm.filter p
      have hlen : (scored.filter p).length = (sorted.filter p).length :=
        (hpermf.length_eq).symm
      have heq : scored.filter p = sorted.filter p := hsub3.eq_of_length hlen
      have hLHS : (sorted.map (fun x => x.2)).filter (fun r => decide (priorityScore r = s)) =
          (sorted.filter p).map (fun x => x.2) := by
        rw [List.filter_map]
        congr 1
        refine List.filter_congr ?_
        intro x hx
        simp only [Function.comp_apply, hpdef]
        rw [hmem x hx]
      have hRHS : (scored.filter p).map (fun x => x.2) =
          recommendations.filter (fun r => decide (priorityScore r = s)) := by
        rw [hscored, List.filter_map, List.map_map]
        have h1 : (p ∘ g) = (fun r => decide (priorityScore r = s)) := by
          funext r
          simp [hpdef, hg]
        have h2 : ((fun x : ℚ × AIRecommendation => x.2) ∘ g) = id := by
          funext r
          simp [hg]
        rw [h1, h2, List.map_id]
      have hfinal : (sorted.map (fun x => x.2)).filter (fun r => decide (priorityScore r = s)) =
          recommendations.filter (fun r => decide (priorityScore r = s)) := by
        rw [hLHS, ← heq, hRHS]
      exact hfinal

/-- Witness for C9 at a concrete input (the theorem has no genuine
hypotheses; this instantiates it anyway). -/
theorem C9_witness :
    (prioritize_recommendations []).Perm [] ∧
    (prioritize_recommendations []).Pairwise
      (fun a b => priorityScore b ≤ priorityScore a) ∧
    (∀ s : ℚ, (prioritize_recommendations []).filter
        (fun r => decide (priorityScore r = s)) =
      ([] : List AIRecommendation).filter (fun r => decide (priorityScore r = s))) :=
  C9_prioritize_full_sorted_stable []

/-! ## Agent retry wrapper (src/onpageseo-service/app/services/recommender.py lines 264-334) -/

/-- `AgentResult(BaseModel)` — models.py lines 459-466.  `input_data`
and `output_data` (`Dict[str, Any]`) are modelled as association lists
of opaque string entries.  Note: the class declares NO `error` field. -/
structure AgentResult where
  agent_type : AgentType
  input_data : List (String × String)
  output_data : List (String × String)
  processing_time : ℚ
  confidence_score : ℚ
  cost_estimate : ℚ
  tokens_used : Option Nat
deriving DecidableEq, Repr

/-- Modelled from the spec: §3 of the spec gives `AgentResult` an
"optional error" field.  The source class (models.py lines 459-466) has
no such field — pydantic would reject setting one — so the spec-side
projection of any source value is `none`. -/
def specAgentResultError (_ : AgentResult) : Option String := none

/-- `SEORecommender._create_fallback_result` — recommender.py lines
1009-1019: fallback with empty payloads, zero confidence, zero cost and
`tokens_used=0`; no error information is (or can be) attached. -/
def create_fallback_result (agent_type : AgentType) : AgentResult :=
  { agent_type := agent_type
    input_data := []
    output_data := []
    processing_time := 0
    confidence_score := 0
    cost_estimate := 0
    tokens_used := some 0 }

/-- One attempt of the wrapped agent call: `await task_fn()` either
returns an `AgentResult` or raises (recommender.py line 281). -/
inductive AttemptOutcome where
  | success (r : AgentResult)
  | failure (err : String)
deriving DecidableEq, Repr

/-- One `seo_agent_runs` row as assembled in recommender.py lines
286-296 (success) and 310-321 (failure); the `created_at` timestamp is
not modelled. -/
structure AgentRunRecord where
  task_id : Option String
  agent_type : AgentType
  attempt : Nat
  status : String
  error_message : Option String
  url_id : String
deriving DecidableEq, Repr

/-- Intermediate state of the `while attempt < max_attempts` loop of
`_run_with_retries`:  the `result` so far, the final value of `attempt`,
the seconds slept between failed attempts, the run-log rows whose insert
was attempted and, separately, whether each insert succeeded (a raising
insert is caught and logged, lines 297-299 and 322-323). -/
structure RetryLoopOut where
  result : Option AgentResult
  attempt : Nat
  sleeps : List Nat
  records : List AgentRunRecord
  writeOutcomes : List Bool
deriving DecidableEq, Repr

/-- The loop body of `_run_with_retries` (recommender.py lines 277-326),
as fuel recursion: `remaining = max_attempts - attempt` iterations are
left.  `outcome n` is the behaviour of the n-th `task_fn()` call;
`logWriteFails n` tells whether the n-th run-log insert raises. -/
def retryLoop (agent_type : AgentType) (task_id : String)
    (outcome : Nat → AttemptOutcome) (logWriteFails : Nat → Bool)
    (url_id : Option String) (max_attempts backoff : Nat) :
    Nat → Nat → RetryLoopOut
  | 0, attempt => ⟨none, attempt, [], [], []⟩
  | remaining + 1, attempt =>
    let attempt' := attempt + 1
    match outcome attempt' with
    | .success r =>
      let records := match url_id with
        | some uid =>
          [⟨if task_id = "" then none else some task_id, agent_type, attempt',
            "success", none, uid⟩]
        | none => []
      let outs := match url_id with
        | some _ => [!logWriteFails attempt']
        | none => []
      ⟨some r, attempt', [], records, outs⟩
    | .failure err =>
      let records := match url_id with
        | some uid =>
          [⟨if task_id = "" then none else some task_id, agent_type, attempt',
            "failed", some err, uid⟩]
        | none => []
      let outs := match url_id with
        | some _ => [!logWriteFails attempt']
        | none => []
      let sleeps := if attempt' < max_attempts then [backoff ^ attempt'] else []
      let rest := retryLoop agent_type task_id outcome logWriteFails url_id
        max_attempts backoff remaining attempt'
      ⟨rest.result, rest.attempt, sleeps ++ rest.sleeps, records ++ rest.records,
        outs ++ rest.writeOutcomes⟩

/-- Observable behaviour of one `_run_with_retries` call. -/
structure RetryTrace where
  result : AgentResult
  attemptsMade : Nat
  sleeps : List Nat
  records : List AgentRunRecord
  writeOutcomes : List Bool
deriving DecidableEq, Repr

/-- `SEORecommender._run_with_retries` — recommender.py lines 264-334:
run the loop from `attempt = 0`; if no attempt succeeded, substitute
`_create_fallback_result` (lines 328-332). -/
def run_with_retries (agent_type : AgentType) (task_id : String)
    (outcome : Nat → AttemptOutcome) (logWriteFails : Nat → Bool)
    (url_id : Option String) (max_attempts backoff : Nat) : RetryTrace :=
  let out := retryLoop agent_type task_id outcome logWriteFails url_id
    max_attempts backoff max_attempts 0
  { result := out.result.getD (create_fallback_result agent_type)
    attemptsMade := out.attempt
    sleeps := out.sleeps
    records := out.records
    writeOutcomes := out.writeOutcomes }

theorem retryLoop_attempt_le (agent_type : AgentType) (task_id : String)
    (outcome : Nat → AttemptOutcome) (logWriteFails : Nat → Bool)
    (url_id : Option String) (max_attempts backoff : Nat) :
    ∀ remaining attempt,
      (retryLoop agent_type task_id outcome logWriteFails url_id
        max_attempts backoff remaining attempt).attempt ≤ attempt + remaining := by
  intro remaining
  induction remaining with
  | zero => intro attempt; simp [retryLoop]
  | succ n ih =>
    intro attempt
    unfold retryLoop
    cases h : outcome (attempt + 1) with
    | success r =>
      simp only [h]
      omega
    | failure err =>
      simp only [h]
      have := ih (attempt + 1)
      omega

theorem retryLoop_logfail_independent (agent_type : AgentType) (task_id : String)
    (outcome : Nat → AttemptOutcome) (f g : Nat → Bool)
    (url_id : Option String) (max_attempts backoff : Nat) :
    ∀ remaining attempt,
      (retryLoop agent_type task_id outcome f url_id
          max_attempts backoff remaining attempt).result =
        (retryLoop agent_type task_id outcome g url_id
          max_attempts backoff remaining attempt).result ∧
      (retryLoop agent_type task_id outcome f url_id
          max_attempts backoff remaining attempt).attempt =
        (retryLoop agent_type task_id outcome g url_id
          max_attempts backoff remaining attempt).attempt ∧
      (retryLoop agent_type task_id outcome f url_id
          max_attempts backoff remaining attempt).sleeps =
        (retryLoop agent_type task_id outcome g url_id
          max_attempts backoff remaining attempt).sleeps ∧
      (retryLoop agent_type task_id outcome f url_id
          max_attempts backoff remaining attempt).records =
        (retryLoop agent_type task_id outcome g url_id
          max_attempts backoff remaining attempt).records := by
  intro remaining
  induction remaining with
  | zero => intro attempt; simp [retryLoop]
  | succ n ih =>
    intro attempt
    unfold retryLoop
    cases h : outcome (attempt + 1) with
    | success r => simp [h]
    | failure err =>
      obtain ⟨h1, h2, h3, h4⟩ := ih (attempt + 1)
      simp only [h]
      exact ⟨h1, h2, by rw [h3], by rw [h4]⟩

/-- C5 counterexample: when every attempt fails (here with defaults
`max_attempts=3`, `backoff=2`), the wrapper returns the typed fallback —
whose spec-side `error` projection is `none`, because the source
`AgentResult` class has no error field to set.  This refutes the claim's
"...and its error field set". -/
theorem C5_counterexample :
    (run_with_retries .keyword "t1" (fun _ => .failure "boom") (fun _ => false)
        (some "u1") 3 2).result = create_fallback_result .keyword ∧
    specAgentResultError
      ((run_with_retries .keyword "t1" (fun _ => .failure "boom") (fun _ => false)
        (some "u1") 3 2).result) = none := by
  constructor <;> rfl

/-- C5 (amended): the call is attempted at most 3 times (default);
between consecutive failed attempts the wrapper sleeps `base^attempt`
seconds with default base 2; a failing run-log insert never alters the
retry loop (result, attempt count, sleeps and attempted records are
independent of insert failures); and when all attempts fail the wrapper
returns (never raises) the fallback `AgentResult` with confidence 0 and
an empty output payload — the `AgentResult` class has no error field, so
no error is recorded on the fallback. -/
theorem C5_amended_retry_contract (agent_type : AgentType) (task_id : String)
    (outcome : Nat → AttemptOutcome) (f g : Nat → Bool) (url_id : Option String) :
    (run_with_retries agent_type task_id outcome f url_id 3 2).attemptsMade ≤ 3 ∧
    ((run_with_retries agent_type task_id outcome f url_id 3 2).result =
        (run_with_retries agent_type task_id outcome g url_id 3 2).result ∧
      (run_with_retries agent_type task_id outcome f url_id 3 2).attemptsMade =
        (run_with_retries agent_type task_id outcome g url_id 3 2).attemptsMade ∧
      (run_with_retries agent_type task_id outcome f url_id 3 2).sleeps =
        (run_with_retries agent_type task_id outcome g url_id 3 2).sleeps ∧
      (run_with_retries agent_type task_id outcome f url_id 3 2).records =
        (run_with_retries agent_type task_id outcome g url_id 3 2).records) ∧
    ((∀ n r, outcome n ≠ .success r) →
      (run_with_retries agent_type task_id outcome f url_id 3 2).result =
          create_fallback_result agent_type ∧
        (run_with_retries agent_type task_id outcome f url_id 3 2).result.confidence_score
          = 0 ∧
        (run_with_retries agent_type task_id outcome f url_id 3 2).result.output_data
          = [] ∧
        (run_with_retries agent_type task_id outcome f url_id 3 2).attemptsMade = 3 ∧
        (run_with_retries agent_type task_id outcome f url_id 3 2).sleeps
          = [2 ^ 1, 2 ^ 2]) ∧
    (∀ (e1 e2 : String) (r : AgentResult),
      outcome 1 = .failure e1 → outcome 2 = .failure e2 → outcome 3 = .success r →
      (run_with_retries agent_type task_id outcome f url_id 3 2).result = r ∧
        (run_with_retries agent_type task_id outcome f url_id 3 2).attemptsMade = 3 ∧
        (run_with_retries agent_type task_id outcome f url_id 3 2).sleeps
          = [2 ^ 1, 2 ^ 2] ∧
        (url_id.isSome →
          (run_with_retries agent_type task_id outcome f url_id 3 2).records.length
            = 3)) := by
  refine ⟨?_, ?_, ?_, ?_⟩
  · have := retryLoop_attempt_le agent_type task_id outcome f url_id 3 2 3 0
    simpa [run_with_retries] using this
  · have := retryLoop_logfail_independent agent_type task_id outcome f g url_id 2 3 0
    obtain ⟨h1, h2, h3, h4⟩ :=
      retryLoop_logfail_independent agent_type task_id outcome f g url_id 3 2 3 0
    exact ⟨by simp [run_with_retries, h1], by simp [run_with_retries, h2],
      by simp [run_with_retries, h3], by simp [run_with_retries, h4]⟩
  · intro hfail
    have h1 : ∃ e, outcome 1 = .failure e := by
      cases h : outcome 1 with
      | success r => exact absurd h (hfail 1 r)
      | failure e => exact ⟨e, rfl⟩
    have h2 : ∃ e, outcome 2 = .failure e := by
      cases h : outcome 2 with
      | success r => exact absurd h (hfail 2 r)
      | failure e => exact ⟨e, rfl⟩
    have h3 : ∃ e, outcome 3 = .failure e := by
      cases h : outcome 3 with
      | success r => exact absurd h (hfail 3 r)
      | failure e => exact ⟨e, rfl⟩
    obtain ⟨e1, h1⟩ := h1
    obtain ⟨e2, h2⟩ := h2
    obtain ⟨e3, h3⟩ := h3
    cases url_id with
    | none => refine ⟨?_, ?_, ?_, ?_, ?_⟩ <;>
        simp [run_with_retries, retryLoop, h1, h2, h3, create_fallback_result]
    | some uid => refine ⟨?_, ?_, ?_, ?_, ?_⟩ <;>
        simp [run_with_retries, retryLoop, h1, h2, h3, create_fallback_result]
  · intro e1 e2 r h1 h2 h3
    cases url_id with
    | none => refine ⟨?_, ?_, ?_, ?_⟩ <;>
        simp [run_with_retries, retryLoop, h1, h2, h3]
    | some uid => refine ⟨?_, ?_, ?_, ?_⟩ <;>
        simp [run_with_retries, retryLoop, h1, h2, h3]

/-- Witness for the amended C5 at concrete inputs. -/
theorem C5_amended_witness :
    ((run_with_retries .keyword "t1" (fun _ => .failure "boom") (fun _ => true)
        (some "u1") 3 2).result = create_fallback_result .keyword ∧
      (run_with_retries .keyword "t1" (fun _ => .failure "boom") (fun _ => true)
        (some "u1") 3 2).result.confidence_score = 0 ∧
      (run_with_retries .keyword "t1" (fun _ => .failure "boom") (fun _ => true)
        (some "u1") 3 2).result.output_data = [] ∧
      (run_with_retries .keyword "t1" (fun _ => .failure "boom") (fun _ => true)
        (some "u1") 3 2).attemptsMade = 3 ∧
      (run_with_retries .keyword "t1" (fun _ => .failure "boom") (fun _ => true)
        (some "u1") 3 2).sleeps = [2 ^ 1, 2 ^ 2]) :=
  (C5_amended_retry_contract .keyword "t1" (fun _ => .failure "boom")
      (fun _ => true) (fun _ => false) (some "u1")).2.2.1
    (by intro n r h; cases h)

/-! ## URL helpers (models of `urllib.parse` as used by the code) -/

/-- Python `s.startswith(p)`. -/
def strStartsWith (s p : String) : Bool := charsHavePre p.toList s.toList

/-- Split a character list at the first `':'`, if any. -/
def splitFirstColon (cs : List Char) : Option (List Char × List Char) :=
  let pre := cs.takeWhile (fun c => c ≠ ':')
  match cs.dropWhile (fun c => c ≠ ':') with
  | [] => none
  | _ :: rest => some (pre, rest)

/-- `urllib.parse` scheme validity: a letter followed by letters,
digits, `+`, `-` or `.`. -/
def validSchemeChars (cs : List Char) : Bool :=
  match cs with
  | [] => false
  | c :: rest => c.isAlpha && rest.all (fun d => d.isAlphanum || d == '+' || d == '-' || d == '.')

/-- Model of `urllib.parse.urlparse(u).netloc`: strip a valid
`scheme:`, then, if the remainder starts with `//`, the netloc runs up
to the next `/`, `?` or `#`; otherwise it is empty. -/
def urlparseNetloc (u : String) : String :=
  let cs := u.toList
  let rest := match splitFirstColon cs with
    | some (pre, post) => if validSchemeChars pre then post else cs
    | none => cs
  if charsHavePre ['/', '/'] rest then
    String.mk ((rest.drop 2).takeWhile (fun c => c ≠ '/' && c ≠ '?' && c ≠ '#'))
  else ""

/-- The scheme part of a URL (text before the first `':'`). -/
def urlScheme (u : String) : String :=
  String.mk (u.toList.takeWhile (fun c => c ≠ ':'))

/-- Base URL up to and including the last `/` (for relative joins). -/
def dropLastSegment (u : String) : String :=
  String.mk ((u.toList.reverse.dropWhile (fun c => c ≠ '/')).reverse)

/-- Model of `urllib.parse.urljoin(base, loc)` as used on Location
headers: absolute URLs pass through, protocol-relative and
root-relative forms resolve against the base, anything else replaces
the base's last path segment (idealized: `..` segments and query
juggling are not modelled; every claim instance uses absolute
locations, for which this model is exact). -/
def pyUrljoin (base loc : String) : String :=
  if strStartsWith loc "http://" || strStartsWith loc "https://" then loc
  else if strStartsWith loc "//" then urlScheme base ++ ":" ++ loc
  else if strStartsWith loc "/" then
    urlScheme base ++ "://" ++ urlparseNetloc base ++ loc
  else dropLastSegment base ++ loc

/-! ## Fetch with redirects (src/onpageseo-service/app/services/analyzer.py lines 69-148) -/

/-- One HTTP response as the fetch loop observes it: status code,
optional `Location` header, body text. -/
structure HttpResponse where
  status : Nat
  location : Option String
  body : String
deriving DecidableEq, Repr

/-- Failure modes of `_fetch_url_content`:  "Redirect without Location
header at ...", "Redirect loop detected at ...", "Too many redirects",
and `HTTPStatusError` from `raise_for_status()`. -/
inductive FetchError where
  | noLocation (url : String)
  | redirectLoop (url : String)
  | tooManyRedirects
  | httpStatus (code : Nat)
deriving DecidableEq, Repr

/-- The redirect status list of analyzer.py line 103. -/
def redirectCodes : List Nat := [301, 302, 303, 307, 308]

/-- The `while redirect_count <= max_redirects` loop of
`_fetch_url_content` (analyzer.py lines 88-146), with
`fuel = max_redirects + 1 - redirect_count`; the network is a function
`world` from URL to response (`str(response.url)` equals the requested
URL because `follow_redirects=False`).  Also returns the accumulated
`redirect_chain` of `(status, url)` pairs.  The `except HTTPStatusError`
re-dispatch (lines 128-140) is unreachable as a redirect: statuses in
`redirectCodes` are consumed before `raise_for_status()` runs, so that
handler always re-raises. -/
def fetchLoop (world : String → HttpResponse) (max_redirects : Nat) :
    Nat → String → List (Nat × String) →
      Except FetchError String × List (Nat × String)
  | 0, _, chain => (.error .tooManyRedirects, chain)
  | fuel + 1, current_url, chain =>
    let resp := world current_url
    let chain' := chain ++ [(resp.status, current_url)]
    if resp.status ∈ redirectCodes then
      match resp.location with
      | none => (.error (.noLocation current_url), chain')
      | some loc =>
        let next := pyUrljoin current_url loc
        if chain'.dropLast.any (fun p => p.2 == next) then
          (.error (.redirectLoop next), chain')
        else fetchLoop world max_redirects fuel next chain'
    else if 400 ≤ resp.status then (.error (.httpStatus resp.status), chain')
    else (.ok resp.body, chain')

/-- `SEOAnalyzer._fetch_url_content` — analyzer.py lines 69-148. -/
def fetch_url_content (world : String → HttpResponse) (url : String)
    (max_redirects : Nat) : Except FetchError String :=
  (fetchLoop world max_redirects (max_redirects + 1) url []).1

/-- The visited `redirect_chain` of one fetch. -/
def fetchTrace (world : String → HttpResponse) (url : String)
    (max_redirects : Nat) : List (Nat × String) :=
  (fetchLoop world max_redirects (max_redirects + 1) url []).2

/-- Outcome of the fetch step of the `analyze_page` endpoint. -/
inductive ApiFetchResult where
  | ok (body : String)
  | httpException (status : Nat) (detail : String)
deriving DecidableEq, Repr

/-- The fetch step of `analyze_page` — analyze.py lines 86-109: an
`HTTPStatusError` with status 403/401/429 becomes a distinct
`HTTPException(403, "Access blocked or rate-limited for URL: ...")`;
an `HTTPStatusError` with any other status hits the bare `raise` at
line 102, which a sibling `except Exception` of the same `try` does NOT
catch, so it escapes the endpoint and the global handler of
main.py lines 86-91 answers `500 "Internal server error"`; every
non-`HTTPStatusError` fetch failure (redirect loop, missing Location,
too many redirects — plain `httpx.HTTPError`s) is caught by that
`except Exception` and becomes the generic
`HTTPException(400, "Could not fetch URL: ...")` (the appended `str(e)`
text is abbreviated to its static prefix). -/
def analyze_fetch_html (world : String → HttpResponse) (url : String) :
    ApiFetchResult :=
  match fetch_url_content world url 10 with
  | .ok body => .ok body
  | .error (.httpStatus c) =>
    if c ∈ [403, 401, 429] then
      .httpException 403 ("Access blocked or rate-limited for URL: " ++ url)
    else .httpException 500 "Internal server error"
  | .error _ => .httpException 400 "Could not fetch URL"

/-- Test fixture: a network in which each URL of `redirects` 301-points
to its partner and every other URL answers 200 with `finalBody`. -/
def chainWorld (redirects : List (String × String)) (finalBody : String) :
    String → HttpResponse :=
  fun u => match redirects.find? (fun p => p.1 == u) with
    | some p => ⟨301, some p.2, ""⟩
    | none => ⟨200, none, finalBody⟩

/-- "No two entries at distance ≥ 2 coincide": any revisit inside the
list is an immediate self-repeat. -/
def NoDistantRepeat (t : List String) : Prop :=
  ∀ i j a b, i + 2 ≤ j → t[i]? = some a → t[j]? = some b → a ≠ b

theorem getElem?_some_lt_length {l : List String} {i : Nat} {a : String}
    (h : l[i]? = some a) : i < l.length := by
  by_contra h'
  rw [List.getElem?_eq_none (le_of_not_lt h')] at h
  exact absurd h (by simp)

theorem ndr_front {l l' : List String} (h : NoDistantRepeat (l ++ l')) :
    NoDistantRepeat l := by
  intro i j a b hij hi hj
  have hilen := getElem?_some_lt_length hi
  have hjlen := getElem?_some_lt_length hj
  refine h i j a b hij ?_ ?_
  · rw [List.getElem?_append, if_pos hilen]
    exact hi
  · rw [List.getElem?_append, if_pos hjlen]
    exact hj

theorem ndr_snoc {l : List String} {x : String} (h : NoDistantRepeat l)
    (hx : ∀ i a, i + 2 ≤ l.length → l[i]? = some a → a ≠ x) :
    NoDistantRepeat (l ++ [x]) := by
  intro i j a b hij hi hj
  have hjlen := getElem?_some_lt_length hj
  rw [List.length_append, List.length_singleton] at hjlen
  rcases Nat.lt_or_ge j l.length with hjl | hjl
  · have hil : i < l.length := by omega
    refine h i j a b hij ?_ ?_
    · rw [List.getElem?_append, if_pos hil] at hi
      exact hi
    · rw [List.getElem?_append, if_pos hjl] at hj
      exact hj
  · have hje : j = l.length := by omega
    subst hje
    have hbx : b = x := by
      rw [List.getElem?_concat_length] at hj
      exact (Option.some.injEq _ _ ▸ hj).symm
    subst hbx
    have hil : i < l.length := by omega
    have hia : l[i]? = some a := by
      rw [List.getElem?_append, if_pos hil] at hi
      exact hi
    exact hx i a (by omega) hia

theorem fetchLoop_trace_len (world : String → HttpResponse) (maxR : Nat) :
    ∀ fuel current chain,
      (fetchLoop world maxR fuel current chain).2.length ≤ chain.length + fuel := by
  intro fuel
  induction fuel with
  | zero => intro current chain; simp [fetchLoop]
  | succ n ih =>
    intro current chain
    unfold fetchLoop
    by_cases hst : (world current).status ∈ redirectCodes
    · rw [if_pos hst]
      cases hloc : (world current).location with
      | none => simp only [List.length_append, List.length_singleton]; omega
      | some loc =>
        dsimp only
        by_cases hloop : ((chain ++ [((world current).status, current)]).dropLast.any
            (fun p => p.2 == pyUrljoin current loc)) = true
        · rw [if_pos hloop]
          simp only [List.length_append, List.length_singleton]
          omega
        · rw [if_neg hloop]
          have := ih (pyUrljoin current loc) (chain ++ [((world current).status, current)])
          simp only [List.length_append, List.length_singleton] at this
          omega
    · rw [if_neg hst]
      by_cases h4 : 400 ≤ (world current).status
      · rw [if_pos h4]
        simp only [List.length_append, List.length_singleton]
        omega
      · rw [if_neg h4]
        simp only [List.length_append, List.length_singleton]
        omega

theorem fetchLoop_ndr (world : String → HttpResponse) (maxR : Nat) :
    ∀ fuel current chain,
      NoDistantRepeat (chain.map (fun p => p.2) ++ [current]) →
      (fetchLoop world maxR fuel current chain).1 = .error .tooManyRedirects →
      NoDistantRepeat ((fetchLoop world maxR fuel current chain).2.map (fun p => p.2)) := by
  intro fuel
  induction fuel with
  | zero =>
    intro current chain hndr _
    simp only [fetchLoop]
    exact ndr_front hndr
  | succ n ih =>
    intro current chain hndr hres
    unfold fetchLoop at hres ⊢
    by_cases hst : (world current).status ∈ redirectCodes
    · rw [if_pos hst] at hres ⊢
      cases hloc : (world current).location with
      | none =>
        rw [hloc] at hres
        simp at hres
      | some loc =>
        rw [hloc] at hres
        dsimp only at hres ⊢
        by_cases hloop : ((chain ++ [((world current).status, current)]).dropLast.any
            (fun p => p.2 == pyUrljoin current loc)) = true
        · rw [if_pos hloop] at hres; simp at hres
        · rw [if_neg hloop] at hres ⊢
          refine ih (pyUrljoin current loc)
            (chain ++ [((world current).status, current)]) ?_ hres
          rw [List.map_append]
          refine ndr_snoc (by simpa using hndr) ?_
          intro i a hlen hia
          rw [List.dropLast_concat] at hloop
          simp only [List.any_eq_true, beq_iff_eq, not_exists, not_and] at hloop
          simp only [List.map_append, List.length_append, List.length_map,
            List.length_singleton] at hlen hia
          have hil : i < chain.length := by omega
          rw [List.getElem?_append, if_pos (by simpa using hil)] at hia
          obtain ⟨p, hp, hpa⟩ := List.mem_map.1 (List.getElem?_mem hia)
          intro hax
          exact hloop p hp (by rw [hpa, hax])
    · rw [if_neg hst] at hres
      by_cases h4 : 400 ≤ (world current).status
      · rw [if_pos h4] at hres; simp at hres
      · rw [if_neg h4] at hres; simp at hres

/-- Fixture: 10 distinct hops ending in a URL that 301-redirects to
itself. -/
def selfLoopRedirects : List (String × String) :=
  [("http://a0", "http://a1"), ("http://a1", "http://a2"), ("http://a2", "http://a3"),
   ("http://a3", "http://a4"), ("http://a4", "http://a5"), ("http://a5", "http://a6"),
   ("http://a6", "http://a7"), ("http://a7", "http://a8"), ("http://a8", "http://a9"),
   ("http://a9", "http://a10"), ("http://a10", "http://a10")]

/-- C6 counterexample: the loop check tests the next target only against
`redirect_chain[:-1]`, i.e. every visited URL EXCEPT the most recent.
In this network `http://a10` is visited and its redirect target equals
the already-visited `http://a10`, yet the fetch fails with the
too-many-redirects error, not the distinct redirect-loop error — the
hop bound is exhausted first.  This refutes "if the next redirect
target equals any URL already visited in the chain it fails with a
distinct redirect-loop error before exceeding the hop bound". -/
theorem C6_counterexample :
    fetch_url_content (chainWorld selfLoopRedirects "done") "http://a0" 10 =
      .error .tooManyRedirects ∧
    ((fetchTrace (chainWorld selfLoopRedirects "done") "http://a0" 10).map
        (fun p => p.2)).contains "http://a10" = true ∧
    chainWorld selfLoopRedirects "done" "http://a10" =
      ⟨301, some "http://a10", ""⟩ := by
  refine ⟨?_, ?_, ?_⟩ <;> rfl

/-- Fixture: a two-cycle `b0 → b1 → b0`. -/
def twoCycleRedirects : List (String × String) :=
  [("http://b0", "http://b1"), ("http://b1", "http://b0")]

/-- Fixture: a three-hop chain `c0 → c1 → c2 → c3`. -/
def threeHopRedirects : List (String × String) :=
  [("http://c0", "http://c1"), ("http://c1", "http://c2"), ("http://c2", "http://c3")]

/-- C6 (amended): the fetch performs at most `max_redirects + 1 = 11`
request hops; when the too-many-redirects error fires, the visited chain
contains no revisit other than an immediate self-repeat (any other
revisit is caught by the loop check, which compares the next target
against all visited URLs except the most recent one; a revisit reaching
the hop bound surfaces the too-many error instead); a redirect response
without a Location header fails with the distinct no-Location error; a
final 401/403/429 reaches the endpoint as the distinct
blocked/rate-limited 403 condition, a final `HTTPStatusError` with any
other status escapes the endpoint handler (the bare `raise` is not
caught by the sibling `except Exception`) and surfaces as the global
handler's 500 "Internal server error", and the non-status fetch errors
(redirect loop, missing Location, too many redirects) map to the
generic 400; a 2-cycle fails with the loop error and a 3-hop chain
resolves to the final body. -/
theorem C6_amended_fetch_contract (world : String → HttpResponse) (url : String) :
    (fetchTrace world url 10).length ≤ 11 ∧
    (fetch_url_content world url 10 = .error .tooManyRedirects →
      NoDistantRepeat ((fetchTrace world url 10).map (fun p => p.2))) ∧
    ((world url).status ∈ redirectCodes → (world url).location = none →
      fetch_url_content world url 10 = .error (.noLocation url)) ∧
    (∀ c, fetch_url_content world url 10 = .error (.httpStatus c) →
      (c ∈ [401, 403, 429] →
        analyze_fetch_html world url =
          .httpException 403 ("Access blocked or rate-limited for URL: " ++ url)) ∧
      (c ∉ [401, 403, 429] →
        analyze_fetch_html world url = .httpException 500 "Internal server error")) ∧
    (∀ e, fetch_url_content world url 10 = .error e →
      (∀ c, e ≠ .httpStatus c) →
      analyze_fetch_html world url = .httpException 400 "Could not fetch URL") ∧
    fetch_url_content (chainWorld twoCycleRedirects "x") "http://b0" 10 =
      .error (.redirectLoop "http://b0") ∧
    fetch_url_content (chainWorld threeHopRedirects "final") "http://c0" 10 =
      .ok "final" := by
  refine ⟨?_, ?_, ?_, ?_, ?_, ?_, ?_⟩
  · have := fetchLoop_trace_len world 10 11 url []
    simpa [fetchTrace] using this
  · intro hres
    have hndr : NoDistantRepeat (([] : List (Nat × String)).map (fun p => p.2) ++ [url]) := by
      intro i j a b hij hi hj
      have := getElem?_some_lt_length hj
      simp at this
      omega
    exact fetchLoop_ndr world 10 11 url [] hndr hres
  · intro hst hloc
    unfold fetch_url_content fetchLoop
    rw [if_pos hst, hloc]
  · intro c hres
    constructor
    · intro hc
      unfold analyze_fetch_html
      rw [hres]
      have : c ∈ [403, 401, 429] := by
        simp only [List.mem_cons, List.not_mem_nil, or_false] at hc ⊢
        tauto
      simp [this]
    · intro hc
      unfold analyze_fetch_html
      rw [hres]
      have : c ∉ [403, 401, 429] := by
        intro h
        apply hc
        simp only [List.mem_cons, List.not_mem_nil, or_false] at h ⊢
        tauto
      simp [this]
  · intro e hres hne
    cases e with
    | noLocation u =>
      unfold analyze_fetch_html
      rw [hres]
    | redirectLoop u =>
      unfold analyze_fetch_html
      rw [hres]
    | tooManyRedirects =>
      unfold analyze_fetch_html
      rw [hres]
    | httpStatus c => exact absurd rfl (hne c)
  · rfl
  · rfl

/-- Witness for the amended C6 at concrete inputs: a no-Location
redirect, a blocked 403, an unhandled 404 (global 500), and a
no-Location fetch error surfacing as the generic 400. -/
theorem C6_amended_witness :
    fetch_url_content (fun _ => ⟨301, none, ""⟩) "http://w" 10 =
      .error (.noLocation "http://w") ∧
    analyze_fetch_html (fun _ => ⟨403, none, ""⟩) "http://w" =
      .httpException 403 ("Access blocked or rate-limited for URL: " ++ "http://w") ∧
    analyze_fetch_html (fun _ => ⟨404, none, ""⟩) "http://w" =
      .httpException 500 "Internal server error" ∧
    analyze_fetch_html (fun _ => ⟨301, none, ""⟩) "http://w" =
      .httpException 400 "Could not fetch URL" :=
  ⟨(C6_amended_fetch_contract (fun _ => ⟨301, none, ""⟩) "http://w").2.2.1
      (by decide) rfl,
    ((C6_amended_fetch_contract (fun _ => ⟨403, none, ""⟩) "http://w").2.2.2.1 403
      (by rfl)).1 (by decide),
    ((C6_amended_fetch_contract (fun _ => ⟨404, none, ""⟩) "http://w").2.2.2.1 404
      (by rfl)).2 (by decide),
    (C6_amended_fetch_contract (fun _ => ⟨301, none, ""⟩) "http://w").2.2.2.2.1
      (.noLocation "http://w") (by rfl) (by intro c h; cases h)⟩

/-! ## Page data model (src/shared_models/models.py lines 158-287)

Fields that none of the verified code reads (display positions,
optimization hints, timestamps, ids) are not modelled; each omission is
noted on the structure. -/

/-- `MetaTag` — models.py lines 158-166 (`property`, `http_equiv`,
`charset`, `original_position`, `suggested_content`, `is_optimal`
unread by the verified code). -/
structure MetaTag where
  name : Option String
  content : Option String
deriving DecidableEq, Repr

/-- `ImageTag` — models.py lines 169-179 (dimension/optimization fields
unread). -/
structure ImageTag where
  src : String
  alt : String
  title : String
deriving DecidableEq, Repr

/-- `LinkTag` — models.py lines 182-192 (`suggested_anchor`,
`link_equity` unread). -/
structure LinkTag where
  url : String
  text : String
  anchor_text : String
  nofollow : Bool
  title : String
  is_internal : Bool
  is_broken : Bool
  rel : List String
deriving DecidableEq, Repr

/-- `ContentMetrics` — models.py lines 195-209 (`keyword_density`,
`semantic_relevance` and the optional recommender fields unread by the
validator/scorer pass). -/
structure ContentMetrics where
  word_count : Int
  sentence_count : Int
  avg_words_per_sentence : ℚ
  unique_words : Int
  char_count : Int
  readability_score : ℚ
  content_quality_score : ℚ
  image_count : Int
deriving DecidableEq, Repr

/-- `SchemaMarkup` — models.py lines 212-218.  The `data : Dict[str,
Any]` payload is read only through `data.get("@type")`
(scorer.py line 415), modelled as `atType`. -/
structure SchemaMarkup where
  type : String
  atType : Option String
  validation_errors : List String
deriving DecidableEq, Repr

/-- `HeadingStructure` — models.py lines 220-229 (`hierarchy_issues`,
`suggested_improvements`, `semantic_structure` unread). -/
structure HeadingStructure where
  h1 : List String
  h2 : List String
  h3 : List String
  h4 : List String
  h5 : List String
  h6 : List String
deriving DecidableEq, Repr

/-- `PageSEOData` — models.py lines 262-287.  `performance`, `mobile`,
`security` are `None` throughout the audit pass (`_extract_page_data`
never sets them, and the sole validator read,
`getattr(performance, "response_time_ms", None)`, names a field
`PagePerformance` does not even declare); ids and timestamps unread. -/
structure PageSEOData where
  url : String
  title : String
  meta_tags : List MetaTag
  headings : HeadingStructure
  images : List ImageTag
  links : List LinkTag
  schema_markup : List SchemaMarkup
  content_metrics : ContentMetrics
  content_text : String
  extracted_keywords : List String
  canonical_url : Option String
  language : Option String
  charset : Option String
  viewport : Option String
  social_media_tags : List (String × String)
deriving DecidableEq, Repr

/-! ## Rule validator (src/onpageseo-service/app/utils/validators.py) -/

/-- Python's `\s` character class (ASCII range; exotic Unicode spaces
not modelled). -/
def isPySpace (c : Char) : Bool :=
  c == ' ' || c == '\t' || c == '\n' || c == '\x0d' || c == '\x0c' || c == '\x0b'

/-- Python `str.split()` with no separator: split on whitespace runs,
dropping empty fields. -/
def pySplit (s : String) : List String :=
  (s.split (fun c => isPySpace c)).filter (fun w => w ≠ "")

/-- Python `s.count(c)` for a single-character needle. -/
def countChar (s : String) (c : Char) : Nat :=
  (s.toList.filter (fun d => d == c)).length

/-- The `https?://` part of `SEOValidator.URL_PATTERN`
(validators.py line 17): strips the scheme, backtracking over the
optional `s`. -/
def dropHttpScheme : List Char → Option (List Char)
  | 'h' :: 't' :: 't' :: 'p' :: rest =>
    match rest with
    | 's' :: ':' :: '/' :: '/' :: r => some r
    | ':' :: '/' :: '/' :: r => some r
    | _ => none
  | _ => none

/-- `re.match` of `URL_PATTERN = ^https?://[^\s/$.?#].[^\s]*$`
(validators.py line 17); the trailing `$` also matches just before one
final newline. -/
def urlPatternMatch (url : String) : Bool :=
  match dropHttpScheme url.toList with
  | none => false
  | some rest =>
    match rest with
    | [] => false
    | c1 :: rest1 =>
      if isPySpace c1 || c1 == '/' || c1 == '$' || c1 == '.' || c1 == '?' || c1 == '#' then
        false
      else
        match rest1 with
        | [] => false
        | c2 :: rest2 =>
          if c2 == '\n' then false
          else
            rest2.all (fun c => !(isPySpace c)) ||
              (rest2 ≠ [] && rest2.getLast? == some '\n' &&
                rest2.dropLast.all (fun c => !(isPySpace c)))

/-- `SEOValidator.validate_url` — validators.py lines 21-74.  The
`isinstance` branch (`url_invalid_type`) cannot fire on a typed string
and `urlparse` on a `str` does not raise (`url_malformed` unreachable). -/
def validate_url (url : String) : Option SEOIssue :=
  if url = "" then some ⟨"url_missing", .critical, 10⟩
  else if !(urlPatternMatch url) then some ⟨"url_invalid_format", .critical, 8⟩
  else if urlparseNetloc url = "" then some ⟨"url_missing_domain", .critical, 8⟩
  else none

/-- `SEOValidator.validate_meta_tag_length` — validators.py lines
76-118. -/
def validate_meta_tag_length (content : String) (tag_type : String)
    (min_len max_len : Nat) : Option SEOIssue :=
  if content = "" then
    some ⟨tag_type ++ "_missing",
      if tag_type = "title" then .critical else .warning,
      if tag_type = "title" then 10 else 8⟩
  else if content.length < min_len then
    some ⟨tag_type ++ "_too_short", .warning, if tag_type = "title" then 3 else 2⟩
  else if content.length > max_len then
    some ⟨tag_type ++ "_too_long", .warning, if tag_type = "title" then 2 else 3 / 2⟩
  else none

/-- `SEOValidator.validate_heading_structure` — validators.py lines
120-152. -/
def validate_heading_structure (headings : HeadingStructure) : List SEOIssue :=
  let h1_count := headings.h1.length
  if h1_count = 0 then [⟨"missing_h1", .critical, 8⟩]
  else if h1_count > 1 then [⟨"multiple_h1", .warning, 6⟩]
  else []

/-- `SEOValidator.validate_image_alt_text` — validators.py lines
154-190. -/
def validate_image_alt_text (images : List ImageTag) : List SEOIssue :=
  images.flatMap (fun img =>
    if img.alt = "" ∧ img.src ≠ "" then [⟨"missing_alt_text", .warning, 4⟩]
    else if img.alt = "" then [⟨"empty_alt_text", .info, 2⟩]
    else [])

/-- `SEOValidator._is_internal_link` — validators.py lines 321-335
(identical logic to `HTMLParser._is_internal_link`, parsers.py lines
256-269). -/
def is_internal_link (url base_domain : String) : Bool :=
  if url = "" || base_domain = "" then false
  else urlparseNetloc url = "" || urlparseNetloc url = urlparseNetloc base_domain

/-- `SEOValidator.validate_internal_links` — validators.py lines
192-219. -/
def validate_internal_links (links : List LinkTag) (base_domain : String) :
    List SEOIssue :=
  let internal_links := links.filter (fun l => is_internal_link l.url base_domain)
  if internal_links.length < 5 then [⟨"few_internal_links", .info, 2⟩] else []

/-- `SEOValidator.validate_external_links` — validators.py lines
467-492. -/
def validate_external_links (links : List LinkTag) : List SEOIssue :=
  links.flatMap (fun l =>
    if l.url = "" then []
    else if strStartsWith l.url "http" then
      if urlparseNetloc l.url = "" then [⟨"external_link_invalid", .warning, 2⟩]
      else []
    else [])

/-- `SEOValidator.validate_schema_markup` — validators.py lines
221-242. -/
def validate_schema_markup (schema_data : List SchemaMarkup) : List SEOIssue :=
  if schema_data.isEmpty then [⟨"no_schema_markup", .info, 3⟩] else []

/-- `SEOValidator.validate_content_length` — validators.py lines
244-269. -/
def validate_content_length (word_count : Int) : Option SEOIssue :=
  if word_count < 300 then some ⟨"thin_content", .warning, 7⟩
  else if word_count > 2500 then some ⟨"content_too_long", .info, 1⟩
  else none

/-- `SEOValidator.validate_canonical_url` — validators.py lines
271-299. -/
def validate_canonical_url (canonical_url : Option String) (current_url : String) :
    Option SEOIssue :=
  let c := canonical_url.getD ""
  if c = "" then some ⟨"missing_canonical", .warning, 4⟩
  else if c ≠ current_url then some ⟨"mismatched_canonical", .info, 2⟩
  else none

/-- `SEOValidator.validate_language_attributes` — validators.py lines
301-319. -/
def validate_language_attributes (html_lang content_language : Option String) :
    Option SEOIssue :=
  if html_lang.getD "" = "" ∧ content_language.getD "" = "" then
    some ⟨"missing_language", .info, 2⟩
  else none

/-- `SEOValidator.validate_mobile_viewport` — validators.py lines
363-378. -/
def validate_mobile_viewport (viewport_meta : Option String) : Option SEOIssue :=
  if viewport_meta.getD "" = "" then some ⟨"missing_viewport", .critical, 8⟩ else none

/-- `SEOValidator.validate_heading_lengths` — validators.py lines
515-538. -/
def validate_heading_lengths (headings : HeadingStructure) (max_length : Nat) :
    List SEOIssue :=
  [("h1", headings.h1), ("h2", headings.h2), ("h3", headings.h3)].flatMap
    (fun lv => lv.2.flatMap (fun h =>
      if h.length > max_length then [⟨lv.1 ++ "_too_long", .warning, 2⟩] else []))

/-- Dictionary lookup on a social-meta map. -/
def lookupMeta (social_meta : List (String × String)) (k : String) : Option String :=
  (social_meta.find? (fun p => p.1 == k)).map (fun p => p.2)

/-- `SEOValidator.validate_social_media_tags` — validators.py lines
428-465. -/
def validate_social_media_tags (social_meta : List (String × String)) :
    List SEOIssue :=
  (["og:title", "og:description", "og:image", "og:url"].flatMap (fun tag =>
    if (lookupMeta social_meta tag).getD "" = "" then
      [⟨"missing_" ++ tag, .info, 5 / 2⟩]
    else [])) ++
  (["twitter:card", "twitter:title", "twitter:description"].flatMap (fun tag =>
    if (lookupMeta social_meta tag).getD "" = "" then
      [⟨"missing_" ++ tag, .info, 5 / 2⟩]
    else []))

/-- `SEOValidator.validate_all` — validators.py lines 540-616, called
from `_validate_page` with `soup=None`.  The hreflang block is skipped:
`getattr(page_data, "hreflang_tags", [])` is always `[]` because
`PageSEOData` has no such field; the response-time block is skipped:
`getattr(performance, "response_time_ms", None)` is always `None`; the
indexability block needs `soup`. -/
def validate_all (pd : PageSEOData) : List SEOIssue :=
  (validate_url pd.url).toList ++
  (validate_meta_tag_length pd.title "title" 50 60).toList ++
  (let meta_description :=
    ((pd.meta_tags.find? (fun t => t.name == some "description")).bind
      (fun t => t.content)).getD ""
   if meta_description ≠ "" then
     (validate_meta_tag_length meta_description "meta_description" 150 160).toList
   else []) ++
  validate_heading_structure pd.headings ++
  validate_heading_lengths pd.headings 70 ++
  validate_image_alt_text pd.images ++
  validate_internal_links pd.links pd.url ++
  validate_external_links pd.links ++
  validate_schema_markup pd.schema_markup ++
  (validate_content_length pd.content_metrics.word_count).toList ++
  (validate_canonical_url pd.canonical_url pd.url).toList ++
  (validate_language_attributes pd.language none).toList ++
  (validate_mobile_viewport pd.viewport).toList ++
  (if pd.social_media_tags ≠ [] then
    validate_social_media_tags pd.social_media_tags
  else [])

/-! ## Heuristic scorer analyzers (src/onpageseo-service/app/utils/scorer.py) -/

/-- Vowel-group counting inside `_estimate_syllables_per_word`
(scorer.py lines 295-302): the second component of the state is
`prev_char_vowel`. -/
def countVowelGroups : List Char → Bool → Nat
  | [], _ => 0
  | c :: cs, prev =>
    let isv := ['a', 'e', 'i', 'o', 'u', 'y'].contains c
    (if isv && !prev then 1 else 0) + countVowelGroups cs isv

/-- Per-word syllable estimate of `_estimate_syllables_per_word`
(scorer.py lines 288-308). -/
def wordSyllables (word : String) : Nat :=
  let w := word.toLower
  if w.length ≤ 3 then 1
  else
    let n := countVowelGroups w.toList false
    let n' := if w.endsWith "e" && decide (n > 1) then n - 1 else n
    max 1 n'

/-- `SEOScorer._estimate_syllables_per_word` — scorer.py lines
282-310. -/
def estimate_syllables_per_word (words : List String) : ℚ :=
  if words = [] then 0
  else ((words.map wordSyllables).sum : ℚ) / words.length

/-- `SEOScorer._calculate_readability` — scorer.py lines 257-280:
simplified Flesch reading ease, clamped to `[0, 100]`. -/
def calculate_readability (text : String) : ℚ :=
  if text = "" then 0
  else
    let words := pySplit text
    let sentences := countChar text '.' + countChar text '!' + countChar text '?'
    if words.length = 0 ∨ sentences = 0 then 0
    else
      let avg_words_per_sentence : ℚ := (words.length : ℚ) / sentences
      let avg_syllables_per_word := estimate_syllables_per_word words
      let score := (206835 : ℚ) / 1000 - ((1015 : ℚ) / 1000) * avg_words_per_sentence -
        ((846 : ℚ) / 10) * avg_syllables_per_word
      max 0 (min 100 score)

/-- `SEOScorer._detect_keyword_stuffing` — scorer.py lines 312-333
(threshold defaults to 0.05). -/
def detect_keyword_stuffing (text : String) (threshold : ℚ) : Bool :=
  if text = "" then false
  else
    let words := pySplit text.toLower
    if words.length < 10 then false
    else
      let longWords := words.filter (fun w => w.length > 3)
      if longWords = [] then false
      else
        let max_freq := (longWords.map (fun w => longWords.count w)).foldl max 0
        decide (threshold < (max_freq : ℚ) / words.length)

/-- `SEOScorer.analyze_title` — scorer.py lines 71-98 (stuffing weight
is `WEIGHTS["content"]["keyword_stuffing"] * 0.5 = 3.0`). -/
def analyze_title (title : String) (_page_url : String) : List SEOIssue :=
  (validate_meta_tag_length title "title" 50 60).toList ++
  (if detect_keyword_stuffing title (1 / 20) then
    [⟨"title_keyword_stuffing", .warning, 3⟩]
  else [])

/-- `SEOScorer._has_proper_heading_hierarchy` — scorer.py lines
237-255. -/
def has_proper_heading_hierarchy (headings : HeadingStructure) : Bool :=
  let levels := [headings.h1, headings.h2, headings.h3, headings.h4,
    headings.h5, headings.h6]
  let found_levels := (List.range 6).filter (fun i => (levels.getD i []) ≠ [])
  match found_levels with
  | [] => true
  | i0 :: _ =>
    if found_levels.length > 1 then
      let last := found_levels.getLastD i0
      (List.range' i0 (last + 1 - i0)).all (fun j => found_levels.contains j)
    else true

/-- `SEOScorer.analyze_headings` — scorer.py lines 100-122. -/
def analyze_headings (headings : HeadingStructure) : List SEOIssue :=
  if !(has_proper_heading_hierarchy headings) then
    [⟨"poor_heading_hierarchy", .info, 3⟩]
  else []

/-- `SEOScorer.analyze_images` — scorer.py lines 124-168
(`OPTIMAL_RANGES["images_with_alt"]` lower bound 0.8). -/
def analyze_images (images : List ImageTag) (total_images : Nat) : List SEOIssue :=
  if total_images = 0 then []
  else
    let images_with_alt := (images.filter (fun img => img.alt ≠ "")).length
    let alt_ratio : ℚ := (images_with_alt : ℚ) / total_images
    (if alt_ratio < 8 / 10 then [⟨"low_alt_text_coverage", .warning, 4⟩] else []) ++
    (let empty_alt_count := (images.filter (fun img => img.alt = "")).length
     if empty_alt_count > 0 then [⟨"empty_alt_text", .info, 2⟩] else [])

/-- `SEOScorer.analyze_content` — scorer.py lines 170-235
(`OPTIMAL_RANGES`: content length 300-2500 words, readability ≥ 60). -/
def analyze_content (content_metrics : ContentMetrics) (text_content : String) :
    List SEOIssue :=
  (if content_metrics.word_count < 300 then [⟨"thin_content", .warning, 7⟩]
   else if content_metrics.word_count > 2500 then [⟨"content_too_long", .info, 1⟩]
   else []) ++
  (if calculate_readability text_content < 60 then [⟨"low_readability", .info, 3⟩]
   else []) ++
  (if detect_keyword_stuffing text_content (1 / 20) then
    [⟨"keyword_stuffing", .warning, 6⟩]
  else [])

/-- The four link buckets `analyze_all` hands to `analyze_links`
(scorer.py lines 531-542): `broken` is always empty because
`getattr(l, "broken", False)` names a field `LinkTag` does not declare
(`is_broken` is never read). -/
structure LinksDict where
  internal : List LinkTag
  external : List LinkTag
  nofollow : List LinkTag
  broken : List LinkTag
deriving DecidableEq, Repr

/-- scorer.py lines 531-542. -/
def linksDict (pd : PageSEOData) : LinksDict :=
  { internal := pd.links.filter (fun l => is_internal_link l.url pd.url)
    external := pd.links.filter (fun l => !(is_internal_link l.url pd.url))
    nofollow := pd.links.filter (fun l =>
      !l.rel.isEmpty && l.rel.any (fun r => r.toLower == "nofollow"))
    broken := [] }

/-- `SEOScorer.analyze_links` — scorer.py lines 335-391. -/
def analyze_links (links : LinksDict) : List SEOIssue :=
  let total_links := links.internal.length + links.external.length +
    links.nofollow.length + links.broken.length
  if total_links = 0 then []
  else
    (if links.internal.length < 5 then [⟨"few_internal_links", .info, 2⟩] else []) ++
    (if links.broken.length > 0 then [⟨"broken_links", .warning, 5⟩] else []) ++
    (if (links.nofollow.length : ℚ) / total_links > 3 / 10 then
      [⟨"high_nofollow_ratio", .info, 2⟩]
    else [])

/-- `SEOScorer.analyze_schema` — scorer.py lines 393-430.  Python
iterates the `missing_types` SET in unspecified hash order; since all
emitted issues are identical (`missing_schema_type`, info, 2.0) only
their number matters; modelled in the recommended-list order. -/
def analyze_schema (schema_data : List SchemaMarkup) : List SEOIssue :=
  if schema_data = [] then [⟨"no_schema", .info, 3⟩]
  else
    ["Article", "Product", "FAQPage", "BreadcrumbList"].flatMap (fun t =>
      if schema_data.any (fun s => s.type == "json-ld" && s.atType == some t) then []
      else [⟨"missing_schema_type", .info, 2⟩])

/-- `SEOScorer.analyze_canonical_and_hreflang` — scorer.py lines
432-466. -/
def analyze_canonical_and_hreflang (canonical_url current_url : String)
    (hreflangs : List (String × String)) : List SEOIssue :=
  (if canonical_url ≠ "" ∧ canonical_url ≠ current_url then
    [⟨"canonical_mismatch", .info, 2⟩]
  else []) ++
  (if hreflangs = [] then [⟨"missing_hreflang", .info, 2⟩] else [])

/-- `SEOScorer.analyze_content_richness` — scorer.py lines 468-501. -/
def analyze_content_richness (_content_metrics : ContentMetrics)
    (images : List ImageTag) (tables_count : Nat) : List SEOIssue :=
  (if images.length < 1 then [⟨"low_media", .info, 3 / 2⟩] else []) ++
  (if tables_count = 0 then [⟨"no_tables", .info, 1⟩] else [])

/-- `SEOScorer.analyze_all` — scorer.py lines 504-560, called from
`_validate_page` with `soup=None` (indexability check skipped).
`getattr(page_data, "hreflang_tags", [])` is always `[]` and
`getattr(page_data, "tables_count", 0)` always `0`: `PageSEOData`
declares neither field. -/
def scorer_analyze_all (pd : PageSEOData) : List SEOIssue :=
  analyze_title pd.title pd.url ++
  analyze_headings pd.headings ++
  analyze_images pd.images pd.images.length ++
  analyze_content pd.content_metrics pd.content_text ++
  analyze_links (linksDict pd) ++
  analyze_schema pd.schema_markup ++
  analyze_canonical_and_hreflang (pd.canonical_url.getD "") pd.url [] ++
  analyze_content_richness pd.content_metrics pd.images 0

/-- `SEOAnalyzer._validate_page` — analyzer.py lines 308-317: the rule
validator followed by the heuristic scorer, concatenated. -/
def validate_page (pd : PageSEOData) : List SEOIssue :=
  validate_all pd ++ scorer_analyze_all pd

/-! ## Claim C10: thin content is double-counted -/

/-- Every `thin_content` issue carries warning severity and weight 7. -/
def ThinOK (i : SEOIssue) : Prop :=
  i.type = "thin_content" → i.level = .warning ∧ i.weight = 7

theorem mem_ite_lists {α : Type} {c : Prop} [Decidable c] {a : α} {l₁ l₂ : List α} :
    (a ∈ (if c then l₁ else l₂)) ↔ ((c ∧ a ∈ l₁) ∨ (¬c ∧ a ∈ l₂)) := by
  split <;> simp_all

theorem mem_toList_iff {α : Type} {o : Option α} {a : α} : a ∈ o.toList ↔ o = some a := by
  cases o <;> simp [eq_comm]

theorem ite_some_elim {α : Type} {c : Prop} [Decidable c] {a : α} {o : Option α}
    {i : α} :
    ((if c then some a else o) = some i) ↔ ((c ∧ a = i) ∨ (¬c ∧ o = some i)) := by
  split <;> simp_all

theorem thinOK_meta_tag_length (content tag_type : String) (min_len max_len : Nat)
    (htag : tag_type = "title" ∨ tag_type = "meta_description") :
    ∀ i ∈ (validate_meta_tag_length content tag_type min_len max_len).toList,
      ThinOK i := by
  intro i hi htype
  rw [mem_toList_iff] at hi
  unfold validate_meta_tag_length at hi
  rcases htag with rfl | rfl <;>
    · repeat' split at hi
      all_goals (try simp at hi)
      all_goals (try subst hi)
      all_goals simp_all

theorem thinOK_heading_lengths (headings : HeadingStructure) (max_length : Nat) :
    ∀ i ∈ validate_heading_lengths headings max_length, ThinOK i := by
  intro i hi htype
  unfold validate_heading_lengths at hi
  simp only [List.mem_flatMap, List.mem_cons, List.not_mem_nil, or_false] at hi
  obtain ⟨lv, hlv, h, _, hi⟩ := hi
  rw [mem_ite_lists] at hi
  rcases hlv with rfl | rfl | rfl <;> rcases hi with ⟨_, hi⟩ | ⟨_, hi⟩ <;> simp_all

theorem thinOK_image_alt (images : List ImageTag) :
    ∀ i ∈ validate_image_alt_text images, ThinOK i := by
  intro i hi htype
  unfold validate_image_alt_text at hi
  simp only [List.mem_flatMap] at hi
  obtain ⟨img, _, hi⟩ := hi
  rw [mem_ite_lists] at hi
  rcases hi with ⟨_, hi⟩ | ⟨_, hi⟩
  · simp_all
  · rw [mem_ite_lists] at hi
    rcases hi with ⟨_, hi⟩ | ⟨_, hi⟩ <;> simp_all

theorem thinOK_external_links (links : List LinkTag) :
    ∀ i ∈ validate_external_links links, ThinOK i := by
  intro i hi htype
  unfold validate_external_links at hi
  simp only [List.mem_flatMap] at hi
  obtain ⟨l, _, hi⟩ := hi
  rw [mem_ite_lists] at hi
  rcases hi with ⟨_, hi⟩ | ⟨_, hi⟩
  · simp_all
  · rw [mem_ite_lists] at hi
    rcases hi with ⟨_, hi⟩ | ⟨_, hi⟩
    · rw [mem_ite_lists] at hi
      rcases hi with ⟨_, hi⟩ | ⟨_, hi⟩ <;> simp_all
    · simp_all

theorem thinOK_social (social_meta : List (String × String)) :
    ∀ i ∈ validate_social_media_tags social_meta, ThinOK i := by
  intro i hi htype
  unfold validate_social_media_tags at hi
  simp only [List.mem_append, List.mem_flatMap, List.mem_cons, List.not_mem_nil,
    or_false] at hi
  rcases hi with ⟨tag, htg, hi⟩ | ⟨tag, htg, hi⟩ <;>
    · rw [mem_ite_lists] at hi
      rcases htg with rfl | rfl | rfl | rfl <;>
        rcases hi with ⟨_, hi⟩ | ⟨_, hi⟩ <;> simp_all

theorem thinOK_validate_all (pd : PageSEOData) :
    ∀ i ∈ validate_all pd, ThinOK i := by
  intro i hi
  unfold validate_all at hi
  simp only [List.mem_append, or_assoc] at hi
  rcases hi with h | h | h | h | h | h | h | h | h | h | h | h | h | h
  · intro htype
    rw [mem_toList_iff] at h
    unfold validate_url at h
    repeat' split at h
    all_goals (try simp at h)
    all_goals (try subst h)
    all_goals simp_all
  · exact thinOK_meta_tag_length _ _ _ _ (Or.inl rfl) i h
  · rw [mem_ite_lists] at h
    rcases h with ⟨_, h⟩ | ⟨_, h⟩
    · exact thinOK_meta_tag_length _ _ _ _ (Or.inr rfl) i h
    · simp at h
  · intro htype
    unfold validate_heading_structure at h
    rw [mem_ite_lists] at h
    rcases h with ⟨_, h⟩ | ⟨_, h⟩
    · simp_all
    · rw [mem_ite_lists] at h
      rcases h with ⟨_, h⟩ | ⟨_, h⟩ <;> simp_all
  · exact thinOK_heading_lengths _ _ i h
  · exact thinOK_image_alt _ i h
  · intro htype
    unfold validate_internal_links at h
    rw [mem_ite_lists] at h
    rcases h with ⟨_, h⟩ | ⟨_, h⟩ <;> simp_all
  · exact thinOK_external_links _ i h
  · intro htype
    unfold validate_schema_markup at h
    rw [mem_ite_lists] at h
    rcases h with ⟨_, h⟩ | ⟨_, h⟩ <;> simp_all
  · intro htype
    rw [mem_toList_iff] at h
    unfold validate_content_length at h
    repeat' split at h
    all_goals (try simp at h)
    all_goals (try subst h)
    all_goals simp_all
  · intro htype
    rw [mem_toList_iff] at h
    unfold validate_canonical_url at h
    rw [ite_some_elim] at h
    rcases h with ⟨_, rfl⟩ | ⟨_, h⟩
    · simp_all
    · rw [ite_some_elim] at h
      rcases h with ⟨_, rfl⟩ | ⟨_, h⟩ <;> simp_all
  · intro htype
    rw [mem_toList_iff] at h
    unfold validate_language_attributes at h
    repeat' split at h
    all_goals (try simp at h)
    all_goals (try subst h)
    all_goals simp_all
  · intro htype
    rw [mem_toList_iff] at h
    unfold validate_mobile_viewport at h
    repeat' split at h
    all_goals (try simp at h)
    all_goals (try subst h)
    all_goals simp_all
  · rw [mem_ite_lists] at h
    rcases h with ⟨_, h⟩ | ⟨_, h⟩
    · exact thinOK_social _ i h
    · simp at h

theorem thinOK_scorer_analyze_all (pd : PageSEOData) :
    ∀ i ∈ scorer_analyze_all pd, ThinOK i := by
  intro i hi
  unfold scorer_analyze_all at hi
  simp only [List.mem_append, or_assoc] at hi
  rcases hi with h | h | h | h | h | h | h | h
  · unfold analyze_title at h
    simp only [List.mem_append, or_assoc] at h
    rcases h with h | h
    · exact thinOK_meta_tag_length _ _ _ _ (Or.inl rfl) i h
    · intro htype
      rw [mem_ite_lists] at h
      rcases h with ⟨_, h⟩ | ⟨_, h⟩ <;> simp_all
  · intro htype
    unfold analyze_headings at h
    rw [mem_ite_lists] at h
    rcases h with ⟨_, h⟩ | ⟨_, h⟩ <;> simp_all
  · intro htype
    unfold analyze_images at h
    rw [mem_ite_lists] at h
    rcases h with ⟨_, h⟩ | ⟨_, h⟩
    · simp at h
    · simp only [List.mem_append, or_assoc] at h
      rcases h with h | h <;>
        · rw [mem_ite_lists] at h
          rcases h with ⟨_, h⟩ | ⟨_, h⟩ <;> simp_all
  · intro htype
    unfold analyze_content at h
    simp only [List.mem_append, or_assoc] at h
    rcases h with h | h | h
    · repeat' rw [mem_ite_lists] at h
      rcases h with ⟨_, h⟩ | ⟨_, ⟨_, h⟩ | ⟨_, h⟩⟩ <;> simp_all
    · rw [mem_ite_lists] at h
      rcases h with ⟨_, h⟩ | ⟨_, h⟩ <;> simp_all
    · rw [mem_ite_lists] at h
      rcases h with ⟨_, h⟩ | ⟨_, h⟩ <;> simp_all
  · intro htype
    unfold analyze_links at h
    rw [mem_ite_lists] at h
    rcases h with ⟨_, h⟩ | ⟨_, h⟩
    · simp at h
    · simp only [List.mem_append, or_assoc] at h
      rcases h with h | h | h <;>
        · rw [mem_ite_lists] at h
          rcases h with ⟨_, h⟩ | ⟨_, h⟩ <;> simp_all
  · intro htype
    unfold analyze_schema at h
    rw [mem_ite_lists] at h
    rcases h with ⟨_, h⟩ | ⟨_, h⟩
    · simp_all
    · simp only [List.mem_flatMap, List.mem_cons, List.not_mem_nil, or_false] at h
      obtain ⟨t, _, h⟩ := h
      rw [mem_ite_lists] at h
      rcases h with ⟨_, h⟩ | ⟨_, h⟩ <;> simp_all
  · intro htype
    unfold analyze_canonical_and_hreflang at h
    simp only [List.mem_append, or_assoc] at h
    rcases h with h | h <;>
      · rw [mem_ite_lists] at h
        rcases h with ⟨_, h⟩ | ⟨_, h⟩ <;> simp_all
  · intro htype
    unfold analyze_content_richness at h
    simp only [List.mem_append, or_assoc] at h
    rcases h with h | h <;>
      · rw [mem_ite_lists] at h
        rcases h with ⟨_, h⟩ | ⟨_, h⟩ <;> simp_all

/-- C10: for every page snapshot whose content word count is below 300,
`_validate_page` (rule validator then heuristic scorer) contains at
least two `thin_content` issues — one from
`SEOValidator.validate_content_length`, one from
`SEOScorer.analyze_content` — each with warning severity and weight
7.0, so the same defect is double-counted in scoring. -/
theorem C10_thin_content_double_counted (pd : PageSEOData)
    (h : pd.content_metrics.word_count < 300) :
    2 ≤ ((validate_page pd).filter (fun i => i.type == "thin_content")).length ∧
    ∀ i ∈ validate_page pd, i.type = "thin_content" →
      i.level = .warning ∧ i.weight = 7 := by
  constructor
  · have hthin : (fun i : SEOIssue => i.type == "thin_content")
        ⟨"thin_content", .warning, 7⟩ = true := by simp
    have hchunk1 : (⟨"thin_content", .warning, 7⟩ : SEOIssue) ∈
        (validate_content_length pd.content_metrics.word_count).toList := by
      rw [mem_toList_iff]
      unfold validate_content_length
      rw [if_pos h]
    have hchunk2 : (⟨"thin_content", .warning, 7⟩ : SEOIssue) ∈
        analyze_content pd.content_metrics pd.content_text := by
      unfold analyze_content
      simp only [List.mem_append, or_assoc]
      left
      rw [if_pos h]
      exact List.mem_singleton.2 rfl
    have hmem1 : (⟨"thin_content", .warning, 7⟩ : SEOIssue) ∈ validate_all pd := by
      unfold validate_all
      simp only [List.mem_append, or_assoc]
      exact Or.inr (Or.inr (Or.inr (Or.inr (Or.inr (Or.inr (Or.inr (Or.inr (Or.inr
        (Or.inl hchunk1)))))))))
    have hmem2 : (⟨"thin_content", .warning, 7⟩ : SEOIssue) ∈ scorer_analyze_all pd := by
      unfold scorer_analyze_all
      simp only [List.mem_append, or_assoc]
      exact Or.inr (Or.inr (Or.inr (Or.inl hchunk2)))
    have c1 : 0 < (validate_all pd).countP (fun i => i.type == "thin_content") :=
      List.countP_pos.2 ⟨_, hmem1, hthin⟩
    have c2 : 0 < (scorer_analyze_all pd).countP (fun i => i.type == "thin_content") :=
      List.countP_pos.2 ⟨_, hmem2, hthin⟩
    have hsplit : (validate_page pd).countP (fun i => i.type == "thin_content") =
        (validate_all pd).countP (fun i => i.type == "thin_content") +
          (scorer_analyze_all pd).countP (fun i => i.type == "thin_content") := by
      unfold validate_page
      exact List.countP_append _ _ _
    rw [← List.countP_eq_length_filter]
    omega
  · intro i hi
    unfold validate_page at hi
    rcases List.mem_append.1 hi with h' | h'
    · exact thinOK_validate_all pd i h'
    · exact thinOK_scorer_analyze_all pd i h'

/-- A concrete snapshot with a 250-word body for the C10 witness. -/
def thinPage : PageSEOData :=
  { url := "http://example.com/page"
    title := "A raw example page title for the audit"
    meta_tags := []
    headings := ⟨["Main"], [], [], [], [], []⟩
    images := []
    links := []
    schema_markup := []
    content_metrics :=
      { word_count := 250
        sentence_count := 10
        avg_words_per_sentence := 25
        unique_words := 120
        char_count := 1400
        readability_score := 55
        content_quality_score := 48
        image_count := 0 }
    content_text := "Short body."
    extracted_keywords := []
    canonical_url := none
    language := none
    charset := none
    viewport := none
    social_media_tags := [] }

/-- Witness for C10 at a concrete input. -/
theorem C10_witness :
    2 ≤ ((validate_page thinPage).filter (fun i => i.type == "thin_content")).length ∧
    ∀ i ∈ validate_page thinPage, i.type = "thin_content" →
      i.level = .warning ∧ i.weight = 7 :=
  C10_thin_content_double_counted thinPage (by decide)

/-! ## Structural extractor (src/onpageseo-service/app/utils/parsers.py)

BeautifulSoup itself is an external library: a successful parse is
abstracted into a `Soup` record whose fields stand for the tag queries
the extractor performs, supplied by a parameter `parse : String → Soup`.
The embedding fixes only the extractor's own control flow — in
particular `parse_html`'s missing-return path and the attribute access
that `extract_all` performs on its result. -/

/-- Abstract view of a parsed document: each field stands for one family
of BeautifulSoup queries used by `HTMLParser`. -/
structure Soup where
  titleTag : Option String
  ogTitleContent : Option String
  firstH1 : Option String
  metaPairs : List (String × String)
  langAttr : Option String
  xmlLangAttr : Option String
  contentLanguageMeta : Option String
  canonicalHref : Option String
  hreflangPairs : List (String × String)
  socialPairs : List (String × String)
  strippedText : String
  headings : HeadingStructure
  anchors : List LinkTag
  imgs : List ImageTag
  schemas : List SchemaMarkup
  headingStats : List (String × List Nat)
  videoCount : Nat
  tableCount : Nat
  iframeCount : Nat
  buttonCount : Nat
  inlineScriptCount : Nat
  inlineStyleCount : Nat
  shareButtonCount : Nat
  keywordsMeta : Option String
deriving Repr

/-- `HTMLParser._set_base_url` — parsers.py lines 35-47: inserts a
`<base>` element, which none of the modelled queries read; identity on
the abstraction. -/
def set_base_url (soup : Soup) (_base_url : String) : Soup := soup

/-- `HTMLParser.parse_html` — parsers.py lines 15-33.  When
`html_content` is falsy, an empty soup is returned; when `base_url` is
truthy, the soup (with base set) is returned from inside the `if`; in
every other case the function body ENDS WITHOUT A RETURN and Python
yields `None` — despite the `-> BeautifulSoup` annotation.  (Python's
`None` and `""` are both falsy for `base_url`; both are modelled as
`""`.) -/
def parse_html (parse : String → Soup) (html_content : String)
    (base_url : String) : Option Soup :=
  if html_content = "" then some (parse "")
  else if base_url ≠ "" then some (set_base_url (parse html_content) base_url)
  else none

/-- `HTMLParser.extract_title` — parsers.py lines 76-97 (title →
`og:title` content → first `<h1>` truncated to 255 chars → `""`;
`None` soup degrades to `""`). -/
def extract_title : Option Soup → String
  | none => ""
  | some s =>
    match s.titleTag with
    | some t => t
    | none =>
      match s.ogTitleContent with
      | some c =>
        if c ≠ "" then c
        else match s.firstH1 with
          | some h => h.take 255
          | none => ""
      | none =>
        match s.firstH1 with
        | some h => h.take 255
        | none => ""

/-- `HTMLParser.extract_meta_tags` — parsers.py lines 49-74 (the merged
name/property/http-equiv/charset map, abstracted to `metaPairs`). -/
def extract_meta_tags : Option Soup → List (String × String)
  | none => []
  | some s => s.metaPairs

/-- The `{"lang", "xml:lang", "content_language"}` result of
`extract_language_info` (parsers.py lines 329-342). -/
structure LangInfo where
  lang : Option String
  xmlLang : Option String
  contentLanguage : Option String
deriving Repr

/-- `HTMLParser.extract_language_info` — parsers.py lines 329-342. -/
def extract_language_info : Option Soup → LangInfo
  | none => ⟨none, none, none⟩
  | some s => ⟨s.langAttr, s.xmlLangAttr, s.contentLanguageMeta⟩

/-- `HTMLParser._resolve_url` — parsers.py lines 240-254. -/
def resolve_url (url base_url : String) : String :=
  if url = "" then ""
  else if base_url = "" then url
  else if strStartsWith url "http://" || strStartsWith url "https://" ||
      strStartsWith url "mailto:" || strStartsWith url "tel:" ||
      strStartsWith url "#" then url
  else pyUrljoin base_url url

/-- `HTMLParser.find_canonical_url` — parsers.py lines 318-327.  On a
falsy soup or base URL the source returns `{}` (a dict, where
`Optional[str]` is annotated); that value is never consumed before
`extract_all` crashes on the same falsy soup, so it is modelled as
`none`. -/
def find_canonical_url (soup : Option Soup) (base_url : String) : Option String :=
  match soup with
  | none => none
  | some s =>
    if base_url = "" then none
    else match s.canonicalHref with
      | some href => some (resolve_url href base_url)
      | none => none

/-- `HTMLParser.extract_hreflang_tags` — parsers.py lines 374-386. -/
def extract_hreflang_tags (soup : Option Soup) (base_url : String) :
    List (String × String) :=
  match soup with
  | none => []
  | some s => s.hreflangPairs.map (fun p => (p.1, resolve_url p.2 base_url))

/-- `HTMLParser.extract_social_meta` — parsers.py lines 388-398. -/
def extract_social_meta : Option Soup → List (String × String)
  | none => []
  | some s => s.socialPairs

/-- Value of `extract_content_text`: the source returns `{}` — a dict,
where `-> str` is annotated — when the soup is falsy (parsers.py lines
218-219), and the cleaned text otherwise. -/
inductive StrOrDict where
  | str (s : String)
  | dict
deriving DecidableEq, Repr

/-- `HTMLParser.extract_content_text` — parsers.py lines 213-238
(script/style/nav/footer/header stripping and whitespace joining are
abstracted into `strippedText`). -/
def extract_content_text : Option Soup → StrOrDict
  | none => .dict
  | some s => .str s.strippedText

/-- Line 470 of parsers.py: `len(soup.find_all("img"))` — an attribute
access on the raw soup value, which raises `AttributeError` when
`parse_html` returned `None`. -/
def soup_find_all_img_count : Option Soup → Except String Nat
  | none => .error "AttributeError: NoneType object has no attribute find_all"
  | some s => .ok s.imgs.length

/-- `HTMLParser.calculate_content_metrics` — parsers.py lines 271-316
(keyword-density and semantic-relevance placeholders not modelled). -/
def calculate_content_metrics (content_text : String) (image_count : Nat) :
    ContentMetrics :=
  let words := pySplit content_text
  let word_count := words.length
  if content_text.trim = "" then
    ⟨0, 0, 0, 0, 0, 0, 0, (image_count : Int)⟩
  else
    let sentence_count := max (countChar content_text '.') 1
    let char_count := content_text.length
    let avg_words_per_sentence : ℚ := (word_count : ℚ) / sentence_count
    let unique_words := words.dedup.length
    let readability_score := max 0 (min 100 (100 - avg_words_per_sentence * (1 / 2)))
    let content_quality_score :=
      max 0 (min 100 (((unique_words : ℚ) / max word_count 1) * 100))
    ⟨word_count, sentence_count, avg_words_per_sentence, unique_words, char_count,
      readability_score, content_quality_score, (image_count : Int)⟩

/-- `HTMLParser.extract_headings` — parsers.py lines 100-115 (the
per-level queries, empty-text headings dropped, abstracted into the
`headings` field). -/
def extract_headings : Option Soup → HeadingStructure
  | none => ⟨[], [], [], [], [], []⟩
  | some s => s.headings

/-- `HTMLParser.extract_heading_stats` — parsers.py lines 400-409. -/
def extract_heading_stats : Option Soup → List (String × List Nat)
  | none => [("h1", []), ("h2", []), ("h3", []), ("h4", []), ("h5", []), ("h6", [])]
  | some s => s.headingStats

/-- `HTMLParser.extract_links` — parsers.py lines 117-153: categorize
anchors into internal/external/nofollow (the `broken` bucket is only
populated later, never here). -/
def extract_links (soup : Option Soup) (base_url : String) : LinksDict :=
  match soup with
  | none => ⟨[], [], [], []⟩
  | some s =>
    if base_url = "" then ⟨[], [], [], []⟩
    else
      let resolved := s.anchors.map (fun a =>
        { a with
            url := resolve_url a.url base_url
            nofollow := a.rel.contains "nofollow" })
      { internal := resolved.filter (fun a => is_internal_link a.url base_url)
        external := resolved.filter (fun a => !(is_internal_link a.url base_url))
        nofollow := resolved.filter (fun a => a.rel.contains "nofollow")
        broken := [] }

/-- `HTMLParser.extract_images` — parsers.py lines 155-177. -/
def extract_images (soup : Option Soup) (base_url : String) : List ImageTag :=
  match soup with
  | none => []
  | some s =>
    if base_url = "" then []
    else s.imgs.map (fun img => { img with src := resolve_url img.src base_url })

/-- `HTMLParser.extract_schema_markup` — parsers.py lines 179-211
(JSON-LD decoding and microdata walking abstracted into `schemas`). -/
def extract_schema_markup : Option Soup → List SchemaMarkup
  | none => []
  | some s => s.schemas

/-- `HTMLParser.extract_media_counts` — parsers.py lines 411-423. -/
def extract_media_counts (soup : Option Soup) : List (String × Nat) :=
  match soup with
  | none => [("images", 0), ("videos", 0), ("tables", 0), ("iframes", 0), ("buttons", 0)]
  | some s =>
    [("images", s.imgs.length), ("videos", s.videoCount), ("tables", s.tableCount),
     ("iframes", s.iframeCount), ("buttons", s.buttonCount)]

/-- `HTMLParser.extract_inline_assets_count` — parsers.py lines
425-434. -/
def extract_inline_assets_count (soup : Option Soup) : List (String × Nat) :=
  match soup with
  | none => [("inline_scripts", 0), ("inline_styles", 0)]
  | some s => [("inline_scripts", s.inlineScriptCount), ("inline_styles", s.inlineStyleCount)]

/-- `HTMLParser.detect_social_share_buttons` — parsers.py lines
436-449. -/
def detect_social_share_buttons : Option Soup → Nat
  | none => 0
  | some s => s.shareButtonCount

/-- First-occurrence dedup of a string list; Python's `list(set(...))`
order is unspecified, modelled as first-occurrence order. -/
def dedupStrAux (seen : List String) : List String → List String
  | [] => []
  | x :: xs =>
    if x ∈ seen then dedupStrAux seen xs else x :: dedupStrAux (x :: seen) xs

def dedupStrings (l : List String) : List String := dedupStrAux [] l

/-- `HTMLParser.extract_keywords` — parsers.py lines 345-371 (the falsy
soup returns `{}` in the source — unreachable from `extract_all` since
line 470 raises first — modelled as `[]`; the commented-out content
heuristic is dead code). -/
def extract_keywords (soup : Option Soup) (_html_content : String) : List String :=
  match soup with
  | none => []
  | some s =>
    match s.keywordsMeta with
    | none => []
    | some c =>
      dedupStrings (((c.splitOn ",").map (fun kw => kw.trim)).filter (fun kw => kw ≠ ""))

/-- The structured result of `extract_all` (parsers.py lines 484-502). -/
structure ExtractedData where
  title : String
  meta_tags : List (String × String)
  lang_info : LangInfo
  canonical_url : Option String
  hreflangs : List (String × String)
  social_meta : List (String × String)
  content_text : StrOrDict
  content_metrics : ContentMetrics
  headings : HeadingStructure
  heading_stats : List (String × List Nat)
  links : LinksDict
  images : List ImageTag
  schema_markup : List SchemaMarkup
  media_counts : List (String × Nat)
  inline_assets : List (String × Nat)
  social_buttons_count : Nat
  keywords : List String
deriving Repr

/-- `HTMLParser.extract_all` — parsers.py lines 452-502, in source
order.  Line 470 evaluates `len(soup.find_all("img"))` directly on the
soup value: when `parse_html` fell through and returned `None`, this
raises `AttributeError` — the only raising step, reached before
`calculate_content_metrics` could choke on the dict-typed
`content_text`. -/
def extract_all (parse : String → Soup) (html_content base_url : String) :
    Except String ExtractedData := do
  let soup := parse_html parse html_content base_url
  let title := extract_title soup
  let meta_tags := extract_meta_tags soup
  let lang_info := extract_language_info soup
  let canonical_url := find_canonical_url soup base_url
  let hreflangs := extract_hreflang_tags soup base_url
  let social_meta := extract_social_meta soup
  let content_text := extract_content_text soup
  let imgCount ← soup_find_all_img_count soup
  let text ← match content_text with
    | .str t => pure t
    | .dict => .error "AttributeError: dict object has no attribute split"
  let content_metrics := calculate_content_metrics text imgCount
  let headings := extract_headings soup
  let heading_stats := extract_heading_stats soup
  let links := extract_links soup base_url
  let images := extract_images soup base_url
  let schema_markup := extract_schema_markup soup
  let media_counts := extract_media_counts soup
  let inline_assets := extract_inline_assets_count soup
  let social_buttons_count := detect_social_share_buttons soup
  let keywords := extract_keywords soup html_content
  return ⟨title, meta_tags, lang_info, canonical_url, hreflangs, social_meta,
    content_text, content_metrics, headings, heading_stats, links, images,
    schema_markup, media_counts, inline_assets, social_buttons_count, keywords⟩

/-- C4 (code bug): with nonempty markup and an empty/missing base URL —
exactly the path taken for `POST /seo/analyze` with `html` only and no
`url` — `parse_html` falls off the end of its body and returns `None`,
and `extract_all` then raises `AttributeError` at
`len(soup.find_all("img"))` (parsers.py line 470) instead of degrading
to defaults.  This holds for EVERY behaviour of the underlying parser
library, which is never even invoked on this path. -/
theorem C4_extract_all_raises (parse : String → Soup) :
    parse_html parse "<p>hi</p>" "" = none ∧
    extract_all parse "<p>hi</p>" "" =
      .error "AttributeError: NoneType object has no attribute find_all" := by
  constructor <;> rfl

end MangoSEO
